import Mathlib

/-!
Shallow embedding of the Inko compiler's type database core
(`types/src/lib.rs`): entity arenas, ownership-qualified type references,
inference placeholders, generic type arguments, trait requirement
inheritance, shape computation and specialization interning, and module
visibility.  Recursive operations that the source implements by direct
recursion through the database (placeholder resolution, type-id
resolution, argument flattening) are embedded with an explicit fuel
parameter; `Err.fuel` marks fuel exhaustion and `Err.missingShape` marks
the source's panic on a missing type-parameter shape.
-/

set_option maxHeartbeats 1000000

namespace Inko

/-- Entity IDs are indices into the database's arenas. -/
structure TypeParameterId where
  id : Nat
deriving DecidableEq, Repr

structure ClassId where
  id : Nat
deriving DecidableEq, Repr

structure TraitId where
  id : Nat
deriving DecidableEq, Repr

structure ModuleId where
  id : Nat
deriving DecidableEq, Repr

structure FieldId where
  id : Nat
deriving DecidableEq, Repr

structure ConstructorId where
  id : Nat
deriving DecidableEq, Repr

structure MethodId where
  id : Nat
deriving DecidableEq, Repr

structure ConstantId where
  id : Nat
deriving DecidableEq, Repr

structure ClosureId where
  id : Nat
deriving DecidableEq, Repr

/-- Built-in class IDs (fixed layout contract). -/
def STRING_ID : Nat := 0
def BYTE_ARRAY_ID : Nat := 1
def INT_ID : Nat := 2
def FLOAT_ID : Nat := 3
def BOOL_ID : Nat := 4
def NIL_ID : Nat := 5
def ARRAY_ID : Nat := 14
def CHECKED_INT_RESULT_ID : Nat := 15
def FIRST_USER_CLASS_ID : Nat := CHECKED_INT_RESULT_ID + 1

/-- The maximum number of methods supported: one less than the `u32`
maximum so `u32::MAX` can serve as a sentinel. -/
def METHODS_LIMIT : Nat := 2 ^ 32 - 2

/-- The ownership tag carried on a placeholder reference. -/
inductive Ownership where
  | Any
  | Owned
  | Uni
  | Ref
  | Mut
  | UniRef
  | UniMut
  | Pointer
deriving DecidableEq, Repr

/-- A reference to a type placeholder, carrying the ownership values must
have before they can be assigned to the placeholder. -/
structure TypePlaceholderId where
  id : Nat
  ownership : Ownership
deriving DecidableEq, Repr

inductive Sign where
  | Signed
  | Unsigned
deriving DecidableEq, Repr

inductive ForeignType where
  | Int : Nat → Sign → ForeignType
  | Float : Nat → ForeignType
deriving DecidableEq, Repr

/-- An instance of a class together with the index of its type-argument
set in the database's shared type-argument table. -/
structure ClassInstance where
  instance_of : ClassId
  type_arguments : Nat
deriving DecidableEq, Repr

structure TraitInstance where
  instance_of : TraitId
  type_arguments : Nat
deriving DecidableEq, Repr

def ClassInstance.new (instance_of : ClassId) : ClassInstance :=
  { instance_of := instance_of, type_arguments := 0 }

def TraitInstance.new (instance_of : TraitId) : TraitInstance :=
  { instance_of := instance_of, type_arguments := 0 }

/-- An ID pointing to a type. -/
inductive TypeId where
  | Class : ClassId → TypeId
  | Trait : TraitId → TypeId
  | Module : ModuleId → TypeId
  | ClassInstance : ClassInstance → TypeId
  | TraitInstance : TraitInstance → TypeId
  | TypeParameter : TypeParameterId → TypeId
  | RigidTypeParameter : TypeParameterId → TypeId
  | AtomicTypeParameter : TypeParameterId → TypeId
  | Closure : ClosureId → TypeId
  | Foreign : ForeignType → TypeId
deriving DecidableEq, Repr

/-- A reference to a type: the ownership qualifier plus the underlying
type ID, or one of the sentinel states. -/
inductive TypeRef where
  | Owned : TypeId → TypeRef
  | Uni : TypeId → TypeRef
  | Ref : TypeId → TypeRef
  | UniRef : TypeId → TypeRef
  | Mut : TypeId → TypeRef
  | UniMut : TypeId → TypeRef
  | Any : TypeId → TypeRef
  | Never : TypeRef
  | Error : TypeRef
  | Unknown : TypeRef
  | Placeholder : TypePlaceholderId → TypeRef
  | Pointer : TypeId → TypeRef
deriving DecidableEq, Repr

def TypeRef.int : TypeRef :=
  .Owned (.ClassInstance (ClassInstance.new ⟨INT_ID⟩))

def TypeRef.float : TypeRef :=
  .Owned (.ClassInstance (ClassInstance.new ⟨FLOAT_ID⟩))

def TypeRef.string : TypeRef :=
  .Owned (.ClassInstance (ClassInstance.new ⟨STRING_ID⟩))

def TypeRef.nil : TypeRef :=
  .Owned (.ClassInstance (ClassInstance.new ⟨NIL_ID⟩))

def TypeRef.boolean : TypeRef :=
  .Owned (.ClassInstance (ClassInstance.new ⟨BOOL_ID⟩))

/-- The shape of a type: the monomorphization key. -/
inductive Shape where
  | Owned
  | Mut
  | Ref
  | Int : Nat → Sign → Shape
  | Float : Nat → Shape
  | Boolean
  | String
  | Nil
  | Atomic
  | Pointer
  | Stack : ClassInstance → Shape
deriving DecidableEq, Repr

def Shape.int : Shape := .Int 64 .Signed

def Shape.float : Shape := .Float 64

inductive Visibility where
  | Public
  | Private
  | TypePrivate
deriving DecidableEq, Repr

inductive ClassKind where
  | Async
  | Atomic
  | Closure
  | Enum
  | Extern
  | Module
  | Regular
  | Tuple
deriving DecidableEq, Repr

def ClassKind.is_extern : ClassKind → Bool
  | .Extern => true
  | _ => false

def ClassKind.is_atomic : ClassKind → Bool
  | .Async => true
  | .Atomic => true
  | _ => false

inductive Storage where
  | Heap
  | Stack
deriving DecidableEq, Repr

inductive MethodKind where
  | Async
  | AsyncMutable
  | Static
  | Constructor
  | Instance
  | Moving
  | Mutable
  | Destructor
  | Extern
deriving DecidableEq, Repr

inductive CallConvention where
  | Inko
  | C
deriving DecidableEq, Repr

inductive Inline where
  | Never
  | Infer
  | Always
deriving DecidableEq, Repr

/-- Source locations carry no information relevant to the verified
properties; they are embedded as the unit type. -/
def Location : Type := Unit

instance : Inhabited Location := ⟨()⟩
instance : DecidableEq Location := fun _ _ => .isTrue rfl

/-- A type inference placeholder: a single cell holding the assigned
value (default `Unknown`) plus an optional required type parameter. -/
structure TypePlaceholder where
  value : TypeRef
  required : Option TypeParameterId
deriving DecidableEq, Repr

instance : Inhabited TypePlaceholder := ⟨⟨.Unknown, none⟩⟩

/-- A type parameter for a method or class. -/
structure TypeParameter where
  name : String
  requirements : List TraitInstance
  mutable : Bool
  stack : Bool
  original : Option TypeParameterId
deriving DecidableEq, Repr

instance : Inhabited TypeParameter := ⟨⟨"", [], false, false, none⟩⟩

def TypeParameter.new (name : String) : TypeParameter :=
  { name := name, requirements := [], mutable := false, stack := false
    original := none }

/-- Type parameters and the types assigned to them.  The source stores
the mapping in a `HashMap`; it is embedded as an association list with
unique keys (`assign` replaces in place), iterated in insertion order. -/
structure TypeArguments where
  mapping : List (TypeParameterId × TypeRef)
deriving DecidableEq, Repr

def TypeArguments.new : TypeArguments := ⟨[]⟩

def TypeArguments.assign (self : TypeArguments) (parameter : TypeParameterId)
    (value : TypeRef) : TypeArguments :=
  if self.mapping.any (fun kv => kv.1 = parameter) then
    ⟨self.mapping.map
      (fun kv => if kv.1 = parameter then (parameter, value) else kv)⟩
  else
    ⟨self.mapping ++ [(parameter, value)]⟩

def TypeArguments.get (self : TypeArguments) (parameter : TypeParameterId) :
    Option TypeRef :=
  (self.mapping.find? (fun kv => kv.1 = parameter)).map (·.2)

def TypeArguments.copy_into (self : TypeArguments) (other : TypeArguments) :
    TypeArguments :=
  self.mapping.foldl (fun acc kv => acc.assign kv.1 kv.2) other

def TypeArguments.move_into (self : TypeArguments) (other : TypeArguments) :
    TypeArguments :=
  self.mapping.foldl (fun acc kv => acc.assign kv.1 kv.2) other

def TypeArguments.is_empty (self : TypeArguments) : Bool :=
  self.mapping.isEmpty

/-- An Inko trait. -/
structure Trait where
  name : String
  module : ModuleId
  location : Location
  implementors : List ClassId
  visibility : Visibility
  type_parameters : List (String × TypeParameterId)
  required_traits : List TraitInstance
  default_methods : List (String × MethodId)
  required_methods : List (String × MethodId)
  inherited_type_arguments : TypeArguments
deriving DecidableEq

instance : Inhabited Trait :=
  ⟨⟨"", ⟨0⟩, (), [], .Private, [], [], [], [], TypeArguments.new⟩⟩

def Trait.new (name : String) (visibility : Visibility) (module : ModuleId)
    (location : Location) : Trait :=
  { name := name, visibility := visibility, module := module
    location := location, implementors := [], type_parameters := []
    required_traits := [], default_methods := [], required_methods := []
    inherited_type_arguments := TypeArguments.new }

def Trait.is_generic (self : Trait) : Bool :=
  !self.type_parameters.isEmpty

/-- An Inko class. -/
structure Class where
  kind : ClassKind
  name : String
  destructor : Bool
  storage : Storage
  module : ModuleId
  location : Location
  visibility : Visibility
  fields : List (String × FieldId)
  type_parameters : List (String × TypeParameterId)
  methods : List (String × MethodId)
  constructors : List (String × ConstructorId)
deriving DecidableEq

instance : Inhabited Class :=
  ⟨⟨.Regular, "", false, .Heap, ⟨0⟩, (), .Private, [], [], [], []⟩⟩

def Class.new (name : String) (kind : ClassKind) (visibility : Visibility)
    (module : ModuleId) (location : Location) : Class :=
  let storage := if kind = ClassKind.Extern then Storage.Stack
                 else Storage.Heap
  { name := name, kind := kind, visibility := visibility, storage := storage
    destructor := false, fields := [], type_parameters := [], methods := []
    constructors := [], module := module, location := location }

def Class.is_generic (self : Class) : Bool :=
  !self.type_parameters.isEmpty

/-- A field for a class. -/
structure Field where
  index : Nat
  name : String
  value_type : TypeRef
  visibility : Visibility
  module : ModuleId
  location : Location
deriving DecidableEq

instance : Inhabited Field := ⟨⟨0, "", .Unknown, .Private, ⟨0⟩, ()⟩⟩

/-- A single constructor defined in an enum class. -/
structure Constructor where
  id : Nat
  name : String
  location : Location
  arguments : List TypeRef
deriving DecidableEq

/-- A static or instance method. -/
structure Method where
  module : ModuleId
  location : Location
  name : String
  kind : MethodKind
  call_convention : CallConvention
  visibility : Visibility
  inline : Inline
  type_parameters : List (String × TypeParameterId)
  return_type : TypeRef
  receiver : TypeRef
  main : Bool
  variadic : Bool
deriving DecidableEq

instance : Inhabited Method :=
  ⟨⟨⟨0⟩, (), "", .Instance, .Inko, .Private, .Infer, [], .Unknown, .Unknown,
    false, false⟩⟩

/-- Modelled from the spec: the module-name type lives in the crate's
`module_name` module, which is not among the sources.  A module name is
a dot-separated path of segments; `head` is the first segment (the root
namespace) and a name is a root when it consists of a single segment. -/
structure ModuleName where
  parts : List String
deriving DecidableEq, Repr

def ModuleName.head (self : ModuleName) : String :=
  self.parts.headD ""

def ModuleName.is_root (self : ModuleName) : Bool :=
  self.parts.length = 1

def ModuleName.as_str (self : ModuleName) : String :=
  String.intercalate "." self.parts

/-- An Inko module. -/
structure Module where
  name : ModuleName
  class_id : ClassId
  file : String
  constants : List ConstantId
deriving DecidableEq

instance : Inhabited Module := ⟨⟨⟨[]⟩, ⟨0⟩, "", []⟩⟩

/-- A constant. -/
structure Constant where
  id : Nat
  module : ModuleId
  location : Location
  name : String
  value_type : TypeRef
  visibility : Visibility
deriving DecidableEq

/-- The entity arena: append-only tables addressed by integer IDs. -/
structure Database where
  type_placeholders : List TypePlaceholder
  type_parameters : List TypeParameter
  traits : List Trait
  classes : List Class
  fields : List Field
  constructors : List Constructor
  methods : List Method
  modules : List Module
  constants : List Constant
  type_arguments : List TypeArguments
deriving DecidableEq

/-- Table lookups (`db.classes[idx]` in the source panics when out of
range; lookups here fall back to a default record, and the theorems only
ever address records that exist). -/
def Database.classAt (db : Database) (i : Nat) : Class :=
  db.classes[i]?.getD default

def Database.traitAt (db : Database) (i : Nat) : Trait :=
  db.traits[i]?.getD default

def Database.phAt (db : Database) (i : Nat) : TypePlaceholder :=
  db.type_placeholders[i]?.getD default

def Database.paramAt (db : Database) (i : Nat) : TypeParameter :=
  db.type_parameters[i]?.getD default

def Database.moduleAt (db : Database) (i : Nat) : Module :=
  db.modules[i]?.getD default

/-- `TraitInstance::type_arguments` / `ClassInstance::type_arguments`:
a checked `get` on the shared type-argument table. -/
def Database.typeArgumentsAt (db : Database) (i : Nat) :
    Option TypeArguments :=
  db.type_arguments[i]?

def ClassId.is_generic (self : ClassId) (db : Database) : Bool :=
  (db.classAt self.id).is_generic

def ClassId.kind (self : ClassId) (db : Database) : ClassKind :=
  (db.classAt self.id).kind

def ClassId.is_value_type (self : ClassId) (db : Database) : Bool :=
  let typ := db.classAt self.id
  match typ.kind with
  | .Async => true
  | .Atomic => true
  | _ => typ.storage = Storage.Stack

def ClassId.is_stack_allocated (self : ClassId) (db : Database) : Bool :=
  (db.classAt self.id).storage = Storage.Stack

def ClassId.is_public (self : ClassId) (db : Database) : Bool :=
  (db.classAt self.id).visibility = Visibility.Public

def ClassId.module (self : ClassId) (db : Database) : ModuleId :=
  (db.classAt self.id).module

def TraitId.is_generic (self : TraitId) (db : Database) : Bool :=
  (db.traitAt self.id).is_generic

def TraitId.is_public (self : TraitId) (db : Database) : Bool :=
  (db.traitAt self.id).visibility = Visibility.Public

def TraitId.module (self : TraitId) (db : Database) : ModuleId :=
  (db.traitAt self.id).module

def TypeParameterId.is_mutable (self : TypeParameterId) (db : Database) :
    Bool :=
  (db.paramAt self.id).mutable

def TypeParameterId.is_stack_allocated (self : TypeParameterId)
    (db : Database) : Bool :=
  (db.paramAt self.id).stack

def ModuleId.name (self : ModuleId) (db : Database) : ModuleName :=
  (db.moduleAt self.id).name

def ClassInstance.type_arguments' (self : ClassInstance) (db : Database) :
    Option TypeArguments :=
  db.typeArgumentsAt self.type_arguments

def TraitInstance.type_arguments' (self : TraitInstance) (db : Database) :
    Option TypeArguments :=
  db.typeArgumentsAt self.type_arguments

/-! ## Placeholder reference ownership adjustment -/

def TypePlaceholderId.with_ownership (self : TypePlaceholderId)
    (ownership : Ownership) : TypePlaceholderId :=
  { id := self.id, ownership := ownership }

def TypePlaceholderId.as_owned' (self : TypePlaceholderId) :
    TypePlaceholderId :=
  self.with_ownership .Owned

def TypePlaceholderId.as_uni' (self : TypePlaceholderId) :
    TypePlaceholderId :=
  self.with_ownership .Uni

def TypePlaceholderId.as_ref' (self : TypePlaceholderId) :
    TypePlaceholderId :=
  self.with_ownership .Ref

def TypePlaceholderId.as_pointer' (self : TypePlaceholderId) :
    TypePlaceholderId :=
  self.with_ownership .Pointer

def TypePlaceholderId.as_mut' (self : TypePlaceholderId) :
    TypePlaceholderId :=
  self.with_ownership .Mut

def TypePlaceholderId.as_uni_ref' (self : TypePlaceholderId) :
    TypePlaceholderId :=
  self.with_ownership .UniRef

def TypePlaceholderId.as_uni_mut' (self : TypePlaceholderId) :
    TypePlaceholderId :=
  self.with_ownership .UniMut

/-- Errors of the fueled evaluator: `fuel` marks fuel exhaustion (the
source would still be recursing), `missingShape` marks the source's
panic when a type parameter has no assigned shape. -/
inductive Err where
  | fuel
  | missingShape : TypeParameterId → Err
deriving DecidableEq, Repr

/-! ## Placeholder resolution and ownership conversions

`TypePlaceholderId::value` recursively follows placeholder chains and
applies the ownership conversion carried on the reference at the point
of resolution.  The conversion operations recurse back through `value`
when applied to a placeholder reference, so the whole family is defined
mutually, with fuel decreasing at every recursive call. -/

mutual

def TypePlaceholderId.value (fuel : Nat) (db : Database)
    (self : TypePlaceholderId) : Except Err (Option TypeRef) :=
  match fuel with
  | 0 => .error .fuel
  | f + 1 =>
    let typ := (db.phAt self.id).value
    match typ with
    | .Placeholder id => TypePlaceholderId.value f db id
    | .Unknown => .ok none
    | _ =>
      match self.ownership with
      | .Any => .ok (some typ)
      | .Owned => (TypeRef.as_owned f db typ).map some
      | .Uni => (TypeRef.as_uni f db typ).map some
      | .Ref => (TypeRef.as_ref f db typ).map some
      | .Mut => (TypeRef.force_as_mut f db typ).map some
      | .UniRef => (TypeRef.as_uni_ref f db typ).map some
      | .UniMut => (TypeRef.force_as_uni_mut f db typ).map some
      | .Pointer => (TypeRef.as_pointer f db typ).map some

def TypeRef.is_value_type (fuel : Nat) (db : Database) (self : TypeRef) :
    Except Err Bool :=
  match fuel with
  | 0 => .error .fuel
  | f + 1 =>
    match self with
    | .Owned (.ClassInstance ins) | .Ref (.ClassInstance ins)
    | .Mut (.ClassInstance ins) | .UniRef (.ClassInstance ins)
    | .UniMut (.ClassInstance ins) | .Uni (.ClassInstance ins) =>
      .ok (ins.instance_of.is_value_type db)
    | .Owned (.Module _) | .Ref (.Module _) | .Mut (.Module _) => .ok true
    | .Owned (.Foreign _) => .ok true
    | .Pointer _ => .ok true
    | .Placeholder id =>
      match TypePlaceholderId.value f db id with
      | .error e => .error e
      | .ok none => .ok false
      | .ok (some v) => TypeRef.is_value_type f db v
    | _ => .ok false

def TypeRef.as_owned (fuel : Nat) (db : Database) (self : TypeRef) :
    Except Err TypeRef :=
  match fuel with
  | 0 => .error .fuel
  | f + 1 =>
    match self with
    | .Uni id | .Any id | .Ref id | .Mut id | .UniRef id | .UniMut id =>
      .ok (.Owned id)
    | .Placeholder id =>
      match TypePlaceholderId.value f db id with
      | .error e => .error e
      | .ok (some v) => TypeRef.as_owned f db v
      | .ok none => .ok (.Placeholder id.as_owned')
    | _ => .ok self

def TypeRef.as_uni (fuel : Nat) (db : Database) (self : TypeRef) :
    Except Err TypeRef :=
  match fuel with
  | 0 => .error .fuel
  | f + 1 =>
    match TypeRef.is_value_type f db self with
    | .error e => .error e
    | .ok true => .ok self
    | .ok false =>
      match self with
      | .Owned id | .Any id | .Uni id | .Mut id | .Ref id => .ok (.Uni id)
      | .Placeholder id =>
        match TypePlaceholderId.value f db id with
        | .error e => .error e
        | .ok (some v) => TypeRef.as_uni f db v
        | .ok none => .ok (.Placeholder id.as_uni')
      | _ => .ok self

def TypeRef.as_ref (fuel : Nat) (db : Database) (self : TypeRef) :
    Except Err TypeRef :=
  match fuel with
  | 0 => .error .fuel
  | f + 1 =>
    match self with
    | .Owned (.ClassInstance ins) =>
      if ClassKind.is_extern (ins.instance_of.kind db) then
        .ok (.Pointer (.ClassInstance ins))
      else if ins.instance_of.is_stack_allocated db then
        .ok (.Owned (.ClassInstance ins))
      else
        .ok (.Ref (.ClassInstance ins))
    | .Owned id | .Any id | .Mut id | .Ref id =>
      match id with
      | .TypeParameter pid =>
        if pid.is_stack_allocated db then .ok (.Owned id)
        else .ok (.Ref id)
      | .RigidTypeParameter pid =>
        if pid.is_stack_allocated db then .ok (.Owned id)
        else .ok (.Ref id)
      | _ => .ok (.Ref id)
    | .Uni id | .UniMut id => .ok (.UniRef id)
    | .Placeholder id =>
      match TypePlaceholderId.value f db id with
      | .error e => .error e
      | .ok (some v) => TypeRef.as_ref f db v
      | .ok none => .ok (.Placeholder id.as_ref')
    | _ => .ok self

def TypeRef.as_mut (fuel : Nat) (db : Database) (self : TypeRef) :
    Except Err TypeRef :=
  match fuel with
  | 0 => .error .fuel
  | f + 1 =>
    match self with
    | .Any (.RigidTypeParameter pid) =>
      if pid.is_stack_allocated db then .ok (.Owned (.RigidTypeParameter pid))
      else if pid.is_mutable db then .ok (.Mut (.RigidTypeParameter pid))
      else .ok (.Ref (.RigidTypeParameter pid))
    | .Any (.TypeParameter pid) =>
      if pid.is_stack_allocated db then .ok (.Owned (.TypeParameter pid))
      else if pid.is_mutable db then .ok (.Mut (.TypeParameter pid))
      else .ok (.Ref (.TypeParameter pid))
    | .Owned (.RigidTypeParameter pid) | .Mut (.RigidTypeParameter pid) =>
      if pid.is_stack_allocated db then .ok (.Owned (.RigidTypeParameter pid))
      else .ok (.Mut (.RigidTypeParameter pid))
    | .Owned (.TypeParameter pid) | .Mut (.TypeParameter pid) =>
      if pid.is_stack_allocated db then .ok (.Owned (.TypeParameter pid))
      else .ok (.Mut (.TypeParameter pid))
    | .Uni (.RigidTypeParameter pid) =>
      if pid.is_stack_allocated db then .ok (.Owned (.RigidTypeParameter pid))
      else .ok (.UniMut (.RigidTypeParameter pid))
    | .Uni (.TypeParameter pid) =>
      if pid.is_stack_allocated db then .ok (.Owned (.TypeParameter pid))
      else .ok (.UniMut (.TypeParameter pid))
    | .Owned (.ClassInstance ins) =>
      if ClassKind.is_extern (ins.instance_of.kind db) then
        .ok (.Pointer (.ClassInstance ins))
      else if ins.instance_of.is_value_type db then
        .ok (.Owned (.ClassInstance ins))
      else
        .ok (.Mut (.ClassInstance ins))
    | .Owned id => .ok (.Mut id)
    | .Uni id => .ok (.UniMut id)
    | .Placeholder id =>
      match TypePlaceholderId.value f db id with
      | .error e => .error e
      | .ok (some v) => TypeRef.as_mut f db v
      | .ok none => .ok (.Placeholder id.as_mut')
    | _ => .ok self

def TypeRef.force_as_mut (fuel : Nat) (db : Database) (self : TypeRef) :
    Except Err TypeRef :=
  match fuel with
  | 0 => .error .fuel
  | f + 1 =>
    match self with
    | .Owned (.ClassInstance ins) =>
      if ClassKind.is_extern (ins.instance_of.kind db) then
        .ok (.Pointer (.ClassInstance ins))
      else if ins.instance_of.is_value_type db then
        .ok (.Owned (.ClassInstance ins))
      else
        .ok (.Mut (.ClassInstance ins))
    | .Owned id | .Any id | .Mut id =>
      match id with
      | .TypeParameter tid =>
        if tid.is_stack_allocated db then .ok (.Owned id)
        else .ok (.Mut id)
      | .RigidTypeParameter tid =>
        if tid.is_stack_allocated db then .ok (.Owned id)
        else .ok (.Mut id)
      | _ => .ok (.Mut id)
    | .Uni id =>
      match id with
      | .TypeParameter tid =>
        if tid.is_stack_allocated db then .ok (.Owned id)
        else .ok (.UniMut id)
      | .RigidTypeParameter tid =>
        if tid.is_stack_allocated db then .ok (.Owned id)
        else .ok (.UniMut id)
      | _ => .ok (.UniMut id)
    | .Placeholder id =>
      match TypePlaceholderId.value f db id with
      | .error e => .error e
      | .ok (some v) => TypeRef.force_as_mut f db v
      | .ok none => .ok (.Placeholder id.as_mut')
    | _ => .ok self

def TypeRef.as_uni_ref (fuel : Nat) (db : Database) (self : TypeRef) :
    Except Err TypeRef :=
  match fuel with
  | 0 => .error .fuel
  | f + 1 =>
    match self with
    | .Owned id | .Any id | .Uni id | .Mut id | .Ref id | .UniRef id
    | .UniMut id => .ok (.UniRef id)
    | .Placeholder id =>
      match TypePlaceholderId.value f db id with
      | .error e => .error e
      | .ok (some v) => TypeRef.as_uni_ref f db v
      | .ok none => .ok (.Placeholder id.as_uni_ref')
    | _ => .ok self

def TypeRef.force_as_uni_mut (fuel : Nat) (db : Database) (self : TypeRef) :
    Except Err TypeRef :=
  match fuel with
  | 0 => .error .fuel
  | f + 1 =>
    match self with
    | .Owned id | .Any id | .Uni id | .Mut id | .Ref id => .ok (.UniMut id)
    | .Placeholder id =>
      match TypePlaceholderId.value f db id with
      | .error e => .error e
      | .ok (some v) => TypeRef.force_as_uni_mut f db v
      | .ok none => .ok (.Placeholder id.as_uni_mut')
    | _ => .ok self

def TypeRef.as_pointer (fuel : Nat) (db : Database) (self : TypeRef) :
    Except Err TypeRef :=
  match fuel with
  | 0 => .error .fuel
  | f + 1 =>
    match self with
    | .Owned id | .Uni id | .Any id | .Mut id | .Ref id => .ok (.Pointer id)
    | .Placeholder id =>
      match TypePlaceholderId.value f db id with
      | .error e => .error e
      | .ok (some v) => TypeRef.as_pointer f db v
      | .ok none => .ok (.Placeholder id.as_pointer')
    | _ => .ok self

end

/-! ## Type-ID resolution and recursive argument lookup -/

/-- `TypeRef::type_id`: `Ok` for the direct forms, recursing through
placeholders, `Err(self)` for the sentinel states. -/
def TypeRef.type_id (fuel : Nat) (db : Database) (self : TypeRef) :
    Except Err (Except TypeRef TypeId) :=
  match fuel with
  | 0 => .error .fuel
  | f + 1 =>
    match self with
    | .Pointer id | .Owned id | .Uni id | .Ref id | .Mut id | .UniRef id
    | .UniMut id | .Any id => .ok (.ok id)
    | .Placeholder pid =>
      match TypePlaceholderId.value f db pid with
      | .error e => .error e
      | .ok none => .ok (.error self)
      | .ok (some t) => TypeRef.type_id f db t
    | _ => .ok (.error self)

/-- `TypeRef::as_type_parameter`. -/
def TypeRef.as_type_parameter (fuel : Nat) (db : Database) (self : TypeRef) :
    Except Err (Option TypeParameterId) :=
  match fuel with
  | 0 => .error .fuel
  | f + 1 =>
    match self with
    | .Owned (.TypeParameter id) | .Uni (.TypeParameter id)
    | .Ref (.TypeParameter id) | .Mut (.TypeParameter id)
    | .Any (.TypeParameter id)
    | .Owned (.RigidTypeParameter id) | .Uni (.RigidTypeParameter id)
    | .Ref (.RigidTypeParameter id) | .Mut (.RigidTypeParameter id)
    | .UniRef (.RigidTypeParameter id) | .UniMut (.RigidTypeParameter id)
    | .Any (.RigidTypeParameter id) => .ok (some id)
    | .Placeholder pid =>
      match TypePlaceholderId.value f db pid with
      | .error e => .error e
      | .ok none => .ok none
      | .ok (some v) => TypeRef.as_type_parameter f db v
    | _ => .ok none

/-- The `while let` loop of `TypeArguments::get_recursive`: follow
parameter-to-parameter aliasing until a non-parameter value, an
unassigned parameter, or a self-referential binding is found. -/
def TypeArguments.get_recursive_loop (fuel : Nat) (db : Database)
    (self : TypeArguments) (typ : TypeRef) : Except Err TypeRef :=
  match fuel with
  | 0 => .error .fuel
  | f + 1 =>
    match TypeRef.as_type_parameter f db typ with
    | .error e => .error e
    | .ok none => .ok typ
    | .ok (some id) =>
      match self.get id with
      | some new =>
        if new = typ then .ok typ
        else TypeArguments.get_recursive_loop f db self new
      | none => .ok typ

def TypeArguments.get_recursive (fuel : Nat) (db : Database)
    (self : TypeArguments) (parameter : TypeParameterId) :
    Except Err (Option TypeRef) :=
  match self.get parameter with
  | some typ => (self.get_recursive_loop fuel db typ).map some
  | none => .ok none

/-! ## Specialization interning -/

/-- Maps structurally different but semantically equivalent type
arguments to one common type-arguments ID. -/
structure InternedTypeArguments where
  cache : List (ClassInstance × Nat)
  mapping : List (List TypeId × Nat)
deriving DecidableEq

def InternedTypeArguments.new : InternedTypeArguments := ⟨[], []⟩

def lookupAssoc {α β : Type} [DecidableEq α] (l : List (α × β)) (k : α) :
    Option β :=
  (l.find? (fun kv => kv.1 = k)).map (·.2)

/-- `HashMap::entry(key).or_insert(v)`: the existing value if any,
otherwise `v` freshly inserted. -/
def orInsertAssoc {α β : Type} [DecidableEq α] (l : List (α × β)) (k : α)
    (v : β) : β × List (α × β) :=
  match lookupAssoc l k with
  | some old => (old, l)
  | none => (v, l ++ [(k, v)])

/-- The `flat_map(|(_, t)| t.type_id(db).ok())` over a type-argument
mapping: the type IDs of the argument values, skipping unresolvable
ones. -/
def idsOf (fuel : Nat) (db : Database)
    (l : List (TypeParameterId × TypeRef)) : Except Err (List TypeId) :=
  match fuel with
  | 0 => .error .fuel
  | f + 1 =>
    match l with
    | [] => .ok []
    | kv :: rest =>
      match TypeRef.type_id f db kv.2 with
      | .error e => .error e
      | .ok r =>
        match idsOf f db rest with
        | .error e => .error e
        | .ok tail =>
          match r with
          | .ok id => .ok (id :: tail)
          | .error _ => .ok tail

/-- The depth-first flattening loop of `InternedTypeArguments::intern`:
pop a type ID, strip generic instances to bare instance markers, push
the type IDs of their arguments, and append the stripped value to the
key. -/
def internLoop (fuel : Nat) (db : Database) (stack : List TypeId)
    (key : List TypeId) : Except Err (List TypeId) :=
  match fuel with
  | 0 => .error .fuel
  | f + 1 =>
    match stack with
    | [] => .ok key
    | tid :: rest =>
      let va : TypeId × Option TypeArguments :=
        match tid with
        | .ClassInstance i =>
          if i.instance_of.is_generic db then
            (.ClassInstance (ClassInstance.new i.instance_of),
             i.type_arguments' db)
          else (tid, none)
        | .TraitInstance i =>
          if i.instance_of.is_generic db then
            (.TraitInstance (TraitInstance.new i.instance_of),
             i.type_arguments' db)
          else (tid, none)
        | _ => (tid, none)
      match va.2 with
      | some args =>
        match idsOf f db args.mapping with
        | .error e => .error e
        | .ok ids => internLoop f db (ids.reverse ++ rest) (key ++ [va.1])
      | none => internLoop f db rest (key ++ [va.1])

/-- `InternedTypeArguments::intern`: per-instance cache, flattening
walk, and first-wins mapping from flattened key to the canonical
type-arguments ID. -/
def InternedTypeArguments.intern (fuel : Nat) (db : Database)
    (self : InternedTypeArguments) (instance' : ClassInstance) :
    Except Err (Nat × InternedTypeArguments) :=
  match lookupAssoc self.cache instance' with
  | some id => .ok (id, self)
  | none =>
    match internLoop fuel db [.ClassInstance instance'] [] with
    | .error e => .error e
    | .ok key =>
      let im := orInsertAssoc self.mapping key instance'.type_arguments
      .ok (im.1, { cache := self.cache ++ [(instance', im.1)]
                   mapping := im.2 })

/-! ## Shape computation -/

def lookupShape (shapes : List (TypeParameterId × Shape))
    (p : TypeParameterId) : Option Shape :=
  lookupAssoc shapes p

mutual

/-- `ClassInstance::shape`: fixed shapes for the builtin scalar classes,
`Atomic` for atomic kinds, `Stack` (with an interned argument ID when
generic) for stack-allocated classes, and the qualifier-derived default
otherwise. -/
def ClassInstance.shape (fuel : Nat) (db : Database)
    (interned : InternedTypeArguments) (self : ClassInstance)
    (default' : Shape) : Except Err (Shape × InternedTypeArguments) :=
  match fuel with
  | 0 => .error .fuel
  | f + 1 =>
    if self.instance_of.id = INT_ID then .ok (Shape.int, interned)
    else if self.instance_of.id = FLOAT_ID then .ok (Shape.float, interned)
    else if self.instance_of.id = BOOL_ID then .ok (.Boolean, interned)
    else if self.instance_of.id = NIL_ID then .ok (.Nil, interned)
    else if self.instance_of.id = STRING_ID then .ok (.String, interned)
    else if (self.instance_of.kind db).is_atomic then .ok (.Atomic, interned)
    else if self.instance_of.is_stack_allocated db then
      match
        (if self.instance_of.is_generic db then
          InternedTypeArguments.intern f db interned self
         else .ok (0, interned)) with
      | .error e => .error e
      | .ok (targs, interned') =>
        .ok (.Stack { instance_of := self.instance_of
                      type_arguments := targs }, interned')
    else .ok (default', interned)

/-- `TypeRef::shape`.  The source panics when an `Owned`/`Any`/`Uni`
type-parameter reference has no entry in the parameter-to-shape table;
that panic is `Err.missingShape`. -/
def TypeRef.shape (fuel : Nat) (db : Database)
    (interned : InternedTypeArguments)
    (shapes : List (TypeParameterId × Shape)) (self : TypeRef) :
    Except Err (Shape × InternedTypeArguments) :=
  match fuel with
  | 0 => .error .fuel
  | f + 1 =>
    match self with
    | .Owned (.ClassInstance ins) | .Uni (.ClassInstance ins) =>
      ClassInstance.shape f db interned ins .Owned
    | .Mut (.ClassInstance ins) | .UniMut (.ClassInstance ins) =>
      ClassInstance.shape f db interned ins .Mut
    | .Ref (.ClassInstance ins) | .UniRef (.ClassInstance ins) =>
      ClassInstance.shape f db interned ins .Ref
    | .Any (.TypeParameter id) | .Any (.RigidTypeParameter id)
    | .Owned (.TypeParameter id) | .Owned (.RigidTypeParameter id)
    | .Uni (.TypeParameter id) | .Uni (.RigidTypeParameter id) =>
      match lookupShape shapes id with
      | some s => .ok (s, interned)
      | none => .error (.missingShape id)
    | .Owned (.AtomicTypeParameter _) | .Ref (.AtomicTypeParameter _)
    | .Mut (.AtomicTypeParameter _) => .ok (.Atomic, interned)
    | .Mut (.TypeParameter id) | .Mut (.RigidTypeParameter id)
    | .UniMut (.TypeParameter id) | .UniMut (.RigidTypeParameter id) =>
      match lookupShape shapes id with
      | some .Owned => .ok (.Mut, interned)
      | none => .ok (.Mut, interned)
      | some s => .ok (s, interned)
    | .Ref (.TypeParameter id) | .Ref (.RigidTypeParameter id)
    | .UniRef (.TypeParameter id) | .UniRef (.RigidTypeParameter id) =>
      match lookupShape shapes id with
      | some .Owned => .ok (.Ref, interned)
      | none => .ok (.Ref, interned)
      | some s => .ok (s, interned)
    | .Mut _ | .UniMut _ => .ok (.Mut, interned)
    | .Ref _ | .UniRef _ => .ok (.Ref, interned)
    | .Placeholder id =>
      match TypePlaceholderId.value f db id with
      | .error e => .error e
      | .ok none => .ok (.Owned, interned)
      | .ok (some v) => TypeRef.shape f db interned shapes v
    | .Owned (.Foreign (.Int size sign)) | .Uni (.Foreign (.Int size sign)) =>
      .ok (.Int size sign, interned)
    | .Owned (.Foreign (.Float size)) | .Uni (.Foreign (.Float size)) =>
      .ok (.Float size, interned)
    | .Pointer _ => .ok (.Pointer, interned)
    | _ => .ok (.Owned, interned)

end

/-! ## Arena alloc factories

The source's `assert!` on a capacity bound is embedded by returning
`none` (the process aborts) when the bound is violated; factories whose
source performs no assertion are total functions. -/

/-- `TypePlaceholder::alloc`: asserts `len < u32::MAX` and returns a
reference with `Any` ownership. -/
def TypePlaceholder.alloc (db : Database)
    (required : Option TypeParameterId) :
    Option (TypePlaceholderId × Database) :=
  if db.type_placeholders.length < 2 ^ 32 - 1 then
    let id := db.type_placeholders.length
    let typ : TypePlaceholder := { value := .Unknown, required := required }
    some (⟨id, .Any⟩,
          { db with type_placeholders := db.type_placeholders ++ [typ] })
  else none

/-- `Trait::alloc`: asserts `len < u32::MAX`. -/
def Trait.alloc (db : Database) (name : String) (visibility : Visibility)
    (module : ModuleId) (location : Location) :
    Option (TraitId × Database) :=
  if db.traits.length < 2 ^ 32 - 1 then
    let id := db.traits.length
    let trait_type := Trait.new name visibility module location
    some (⟨id⟩, { db with traits := db.traits ++ [trait_type] })
  else none

/-- `Class::add` (used by `Class::alloc`): asserts `len < u32::MAX`. -/
def Class.add (db : Database) (class' : Class) :
    Option (ClassId × Database) :=
  if db.classes.length < 2 ^ 32 - 1 then
    let id := db.classes.length
    some (⟨id⟩, { db with classes := db.classes ++ [class'] })
  else none

def Class.alloc (db : Database) (name : String) (kind : ClassKind)
    (visibility : Visibility) (module : ModuleId) (location : Location) :
    Option (ClassId × Database) :=
  Class.add db (Class.new name kind visibility module location)

/-- `Field::alloc`: the source performs no capacity assertion; the
record is appended unconditionally. -/
def Field.alloc (db : Database) (name : String) (index : Nat)
    (value_type : TypeRef) (visibility : Visibility) (module : ModuleId)
    (location : Location) : FieldId × Database :=
  let id := db.fields.length
  (⟨id⟩,
   { db with
       fields := db.fields ++
         [{ name := name, index := index, value_type := value_type
            visibility := visibility, module := module
            location := location }] })

/-- `Constructor::alloc`: the source performs no capacity assertion; the
record is appended unconditionally. -/
def Constructor.alloc (db : Database) (id : Nat) (name : String)
    (members : List TypeRef) (location : Location) :
    ConstructorId × Database :=
  let global_id := db.constructors.length
  (⟨global_id⟩,
   { db with
       constructors := db.constructors ++
         [{ id := id, name := name, arguments := members
            location := location }] })

/-- `Method::alloc`: asserts `len < METHODS_LIMIT` (`u32::MAX − 1`,
reserving a sentinel); extern methods get the C call convention and are
never inlined. -/
def Method.alloc (db : Database) (module : ModuleId) (location : Location)
    (name : String) (visibility : Visibility) (kind : MethodKind) :
    Option (MethodId × Database) :=
  if db.methods.length < METHODS_LIMIT then
    let call_convention :=
      if kind = MethodKind.Extern then CallConvention.C
      else CallConvention.Inko
    let inline :=
      if kind = MethodKind.Extern then Inline.Never else Inline.Infer
    let id := db.methods.length
    let method : Method :=
      { module := module, location := location, name := name, kind := kind
        call_convention := call_convention, visibility := visibility
        type_parameters := [], return_type := .Unknown
        receiver := .Unknown, main := false, variadic := false
        inline := inline }
    some (⟨id⟩, { db with methods := db.methods ++ [method] })
  else none

/-! ## Placeholder assignment -/

def Database.setPlaceholderValue (db : Database) (i : Nat) (value : TypeRef) :
    Database :=
  { db with
      type_placeholders :=
        db.type_placeholders.set i { db.phAt i with value := value } }

/-- `TypePlaceholderId::assign_internal`: the write path through a
shared database reference.  Assigning a placeholder to itself is
ignored, as it would make resolution loop. -/
def TypePlaceholderId.assign_internal (self : TypePlaceholderId)
    (db : Database) (value : TypeRef) : Database :=
  match value with
  | .Placeholder id =>
    if id.id = self.id then db
    else db.setPlaceholderValue self.id value
  | _ => db.setPlaceholderValue self.id value

/-- `TypePlaceholderId::assign`: the write path requiring exclusive
database access; it delegates to `assign_internal`. -/
def TypePlaceholderId.assign (self : TypePlaceholderId) (db : Database)
    (value : TypeRef) : Database :=
  self.assign_internal db value

/-! ## Symbols and module visibility -/

inductive Symbol where
  | Class : ClassId → Symbol
  | Trait : TraitId → Symbol
  | Module : ModuleId → Symbol
  | TypeParameter : TypeParameterId → Symbol
  | Constant : ConstantId → Symbol
  | Method : MethodId → Symbol
deriving DecidableEq

def Database.methodAt (db : Database) (i : Nat) : Method :=
  db.methods[i]?.getD default

def Database.constantAt (db : Database) (i : Nat) : Constant :=
  db.constants[i]?.getD
    { id := 0, module := ⟨0⟩, location := (), name := ""
      value_type := .Unknown, visibility := .Private }

def MethodId.is_public (self : MethodId) (db : Database) : Bool :=
  (db.methodAt self.id).visibility = Visibility.Public

def MethodId.module (self : MethodId) (db : Database) : ModuleId :=
  (db.methodAt self.id).module

def ConstantId.is_public (self : ConstantId) (db : Database) : Bool :=
  (db.constantAt self.id).visibility = Visibility.Public

def ConstantId.module (self : ConstantId) (db : Database) : ModuleId :=
  (db.constantAt self.id).module

def Symbol.is_public (self : Symbol) (db : Database) : Bool :=
  match self with
  | .Method id => id.is_public db
  | .Class id => id.is_public db
  | .Trait id => id.is_public db
  | .Constant id => id.is_public db
  | _ => true

/-- Models stripping the leading `"test_"` from a module-name string,
on the character-list level so it evaluates inside the kernel. -/
def dropTestMarker (s : String) : Option String :=
  if s.data.take 5 = "test_".data then some ⟨s.data.drop 5⟩ else none

/-- `ModuleId::has_same_root_namespace`: same first path segment, or
`other` is a top-level `test_x` module and our root namespace is `x`. -/
def ModuleId.has_same_root_namespace (self : ModuleId) (db : Database)
    (other : ModuleId) : Bool :=
  let ours := self.name db
  let theirs := other.name db
  if ours.head = theirs.head then true
  else if !theirs.is_root then false
  else
    match dropTestMarker theirs.as_str with
    | some name => ours.head = name
    | none => false

/-- `Symbol::is_visible_to`: public symbols are visible everywhere;
otherwise visibility requires the defining module to share the caller's
root namespace. -/
def Symbol.is_visible_to (self : Symbol) (db : Database)
    (module : ModuleId) : Bool :=
  if self.is_public db then true
  else
    match self with
    | .Method id => (id.module db).has_same_root_namespace db module
    | .Class id => (id.module db).has_same_root_namespace db module
    | .Trait id => (id.module db).has_same_root_namespace db module
    | .Constant id => (id.module db).has_same_root_namespace db module
    | _ => true

/-! ## Trait requirement inheritance -/

def Database.setTrait (db : Database) (i : Nat) (t : Trait) : Database :=
  { db with traits := db.traits.set i t }

/-- `TraitId::add_required_trait`: eagerly composes the requirement's
inherited type arguments with the requirement instance's own arguments
and stores the result on `self` at requirement-add time.  The source
`unwrap`s the requirement's argument set when the required trait is
generic; a missing set is that panic, embedded as `none`. -/
def TraitId.add_required_trait (self : TraitId) (db : Database)
    (requirement : TraitInstance) : Option Database :=
  let base := (db.traitAt requirement.instance_of.id).inherited_type_arguments
  let base' :=
    if requirement.instance_of.is_generic db then
      match requirement.type_arguments' db with
      | some args => some (args.copy_into base)
      | none => none
    else some base
  match base' with
  | none => none
  | some base' =>
    let self_typ := db.traitAt self.id
    let self_typ' :=
      { self_typ with
          inherited_type_arguments :=
            base'.move_into self_typ.inherited_type_arguments
          required_traits := self_typ.required_traits ++ [requirement] }
    some (db.setTrait self.id self_typ')

end Inko

deriving instance DecidableEq for Except

namespace Inko

/-! ## Theorems about the placeholder write and read paths -/

/-- C6: assigning a placeholder a `TypeRef::Placeholder` whose
placeholder id equals its own id leaves the stored cell value unchanged
(the database is returned untouched, so an `Unknown` cell stays
unresolved), and both write paths — `assign_internal` (shared access)
and `assign` (exclusive access) — apply the self-assignment guard. -/
theorem assign_self_is_noop (db : Database) (p q : TypePlaceholderId)
    (v : TypeRef) (hv : v = .Placeholder q) (hq : q.id = p.id) :
    p.assign_internal db v = db ∧ p.assign db v = db := by
  subst hv
  constructor
  · simp [TypePlaceholderId.assign_internal, hq]
  · simp [TypePlaceholderId.assign, TypePlaceholderId.assign_internal, hq]

/-- Witness database for the self-assignment claim: one placeholder,
still unresolved. -/
def dbC6 : Database :=
  { type_placeholders := [⟨.Unknown, none⟩], type_parameters := []
    traits := [], classes := [], fields := [], constructors := []
    methods := [], modules := [], constants := [], type_arguments := [] }

theorem assign_self_is_noop_witness :
    TypePlaceholderId.assign_internal ⟨0, .Any⟩ dbC6
        (.Placeholder ⟨0, .Mut⟩) = dbC6 ∧
    TypePlaceholderId.assign ⟨0, .Any⟩ dbC6
        (.Placeholder ⟨0, .Mut⟩) = dbC6 :=
  assign_self_is_noop dbC6 ⟨0, .Any⟩ ⟨0, .Mut⟩ _ rfl rfl

/-- C7: for placeholders `P1 → P2 → P3 → Int` (each reference carrying
the default `Any` ownership), `value()` on each of the three returns
`Some(Int)`: reading recursively follows placeholder chains. -/
theorem value_follows_placeholder_chain (db : Database)
    (p1 p2 p3 : TypePlaceholderId) (f : Nat)
    (h1 : (db.phAt p1.id).value = .Placeholder p2)
    (h2 : (db.phAt p2.id).value = .Placeholder p3)
    (h3 : (db.phAt p3.id).value = TypeRef.int)
    (o3 : p3.ownership = .Any) :
    TypePlaceholderId.value (f + 3) db p1 = .ok (some TypeRef.int) ∧
    TypePlaceholderId.value (f + 3) db p2 = .ok (some TypeRef.int) ∧
    TypePlaceholderId.value (f + 3) db p3 = .ok (some TypeRef.int) := by
  have hv3 : ∀ g, TypePlaceholderId.value (g + 1) db p3 =
      .ok (some TypeRef.int) := by
    intro g
    simp [TypePlaceholderId.value, h3, TypeRef.int, o3]
  have hv2 : ∀ g, TypePlaceholderId.value (g + 2) db p2 =
      .ok (some TypeRef.int) := by
    intro g
    have : TypePlaceholderId.value (g + 2) db p2 =
        TypePlaceholderId.value (g + 1) db p3 := by
      simp [TypePlaceholderId.value, h2]
    rw [this, hv3]
  refine ⟨?_, hv2 (f + 1), hv3 (f + 2)⟩
  have : TypePlaceholderId.value (f + 3) db p1 =
      TypePlaceholderId.value (f + 2) db p2 := by
    simp [TypePlaceholderId.value, h1]
  rw [this, hv2]

/-- Witness database for the chain claim: three placeholders forming
`P1 → P2 → P3 → Int`. -/
def dbC7 : Database :=
  { type_placeholders :=
      [⟨.Placeholder ⟨1, .Any⟩, none⟩,
       ⟨.Placeholder ⟨2, .Any⟩, none⟩,
       ⟨TypeRef.int, none⟩]
    type_parameters := [], traits := [], classes := [], fields := []
    constructors := [], methods := [], modules := [], constants := []
    type_arguments := [] }

theorem value_follows_placeholder_chain_witness :
    TypePlaceholderId.value 3 dbC7 ⟨0, .Any⟩ = .ok (some TypeRef.int) ∧
    TypePlaceholderId.value 3 dbC7 ⟨1, .Any⟩ = .ok (some TypeRef.int) ∧
    TypePlaceholderId.value 3 dbC7 ⟨2, .Any⟩ = .ok (some TypeRef.int) :=
  value_follows_placeholder_chain dbC7 ⟨0, .Any⟩ ⟨1, .Any⟩ ⟨2, .Any⟩ 0
    rfl rfl rfl rfl

/-- C10: when a placeholder reference carries a non-`Any` ownership tag
but its cell contains another placeholder reference, `value()` resolves
the inner reference under the inner reference's own ownership tag; the
outer reference's deferred ownership conversion is discarded. -/
theorem value_discards_outer_ownership (db : Database)
    (outer inner : TypePlaceholderId) (f : Nat)
    (h : (db.phAt outer.id).value = .Placeholder inner)
    (_ho : outer.ownership ≠ .Any) :
    TypePlaceholderId.value (f + 1) db outer =
      TypePlaceholderId.value f db inner := by
  simp [TypePlaceholderId.value, h]

/-- Witness database: the outer placeholder reference demands `Mut`, the
inner one `Ref`; the inner cell resolves to an owned heap class
instance.  Resolution applies the inner `Ref` tag, not the outer
`Mut`. -/
def dbC10 : Database :=
  { type_placeholders :=
      [⟨.Placeholder ⟨1, .Ref⟩, none⟩,
       ⟨.Owned (.ClassInstance (ClassInstance.new ⟨16⟩)), none⟩]
    type_parameters := [], traits := []
    classes := List.replicate 17 (Class.new "A" .Regular .Public ⟨0⟩ ())
    fields := [], constructors := [], methods := [], modules := []
    constants := [], type_arguments := [] }

theorem value_discards_outer_ownership_witness :
    TypePlaceholderId.value 3 dbC10 ⟨0, .Mut⟩ =
      TypePlaceholderId.value 2 dbC10 ⟨1, .Ref⟩ ∧
    TypePlaceholderId.value 2 dbC10 ⟨1, .Ref⟩ =
      .ok (some (.Ref (.ClassInstance (ClassInstance.new ⟨16⟩)))) :=
  ⟨value_discards_outer_ownership dbC10 ⟨0, .Mut⟩ ⟨1, .Ref⟩ 2 rfl
    (by decide), by decide⟩

/-! ## Theorems about arena allocation -/

/-- C2 counterexample: `Field::alloc` performs no capacity assertion.
On a database whose field arena already holds `u16::MAX` records it
inserts a new record and returns a fresh ID instead of aborting. -/
def dbC2 : Database :=
  { type_placeholders := [], type_parameters := [], traits := []
    classes := [], fields := List.replicate 65535 default
    constructors := [], methods := [], modules := [], constants := []
    type_arguments := [] }

/-- Helper: `Field::alloc` always appends one record, for any database
state. -/
theorem Field.alloc_appends (db : Database) (n : String) (idx : Nat)
    (vt : TypeRef) (v : Visibility) (m : ModuleId) (l : Location) :
    ((Field.alloc db n idx vt v m l).2).fields.length =
      db.fields.length + 1 := by
  simp [Field.alloc]

theorem field_alloc_ignores_capacity :
    dbC2.fields.length = 65535 ∧
    (Field.alloc dbC2 "f" 0 .Unknown .Private ⟨0⟩ ()).1 = ⟨65535⟩ ∧
    ((Field.alloc dbC2 "f" 0 .Unknown .Private ⟨0⟩ ()).2).fields.length =
      dbC2.fields.length + 1 := by
  refine ⟨?_, ?_, Field.alloc_appends dbC2 "f" 0 .Unknown .Private ⟨0⟩ ()⟩
  · simp only [dbC2, List.length_replicate]
  · simp only [Field.alloc, dbC2, List.length_replicate]

/-- C2 amended: `Method::alloc` asserts `len < u32::MAX − 1` (reserving
a sentinel) and `Trait`/`Class`/placeholder allocs assert
`len < u32::MAX`, aborting on violation; `Field::alloc` and
`Constructor::alloc` perform no capacity assertion and append a record
unconditionally. -/
theorem alloc_capacity_checks (db : Database) (n : String)
    (v : Visibility) (m : ModuleId) (l : Location) (k : MethodKind)
    (idx cid : Nat) (vt : TypeRef) (req : Option TypeParameterId)
    (mem : List TypeRef) (c : Class) :
    ((Method.alloc db m l n v k).isSome ↔
      db.methods.length < 2 ^ 32 - 2) ∧
    ((Trait.alloc db n v m l).isSome ↔ db.traits.length < 2 ^ 32 - 1) ∧
    ((TypePlaceholder.alloc db req).isSome ↔
      db.type_placeholders.length < 2 ^ 32 - 1) ∧
    ((Class.add db c).isSome ↔ db.classes.length < 2 ^ 32 - 1) ∧
    (Field.alloc db n idx vt v m l).1 = ⟨db.fields.length⟩ ∧
    ((Field.alloc db n idx vt v m l).2).fields.length =
      db.fields.length + 1 ∧
    (Constructor.alloc db cid n mem l).1 = ⟨db.constructors.length⟩ ∧
    ((Constructor.alloc db cid n mem l).2).constructors.length =
      db.constructors.length + 1 := by
  refine ⟨?_, ?_, ?_, ?_, ?_, ?_, ?_, ?_⟩
  · unfold Method.alloc METHODS_LIMIT
    split <;> simp_all
  · unfold Trait.alloc
    split <;> simp_all
  · unfold TypePlaceholder.alloc
    split <;> simp_all
  · unfold Class.add
    split <;> simp_all
  · simp [Field.alloc]
  · simp [Field.alloc]
  · simp [Constructor.alloc]
  · simp [Constructor.alloc]

/-! ## Theorems about shape computation -/

/-- C3 counterexample: computing the shape of a `Mut` reference to a
type parameter with an empty parameter-to-shape table is not a panic;
the source's `Some(Shape::Owned) | None => Shape::Mut` arm silently
defaults to `Shape::Mut`. -/
def dbC3 : Database :=
  { type_placeholders := [], type_parameters := [TypeParameter.new "T"]
    traits := [], classes := [], fields := [], constructors := []
    methods := [], modules := [], constants := [], type_arguments := [] }

theorem shape_mut_param_defaults_instead_of_panicking :
    TypeRef.shape 1 dbC3 InternedTypeArguments.new []
        (.Mut (.TypeParameter ⟨0⟩)) =
      .ok (.Mut, InternedTypeArguments.new) := by
  decide

/-- C3 amended: a missing entry in the parameter-to-shape table is a
panic (fatal internal error) only for `Owned`, `Any`, and `Uni`
type-parameter references; `Mut`/`UniMut` references default to
`Shape::Mut` and `Ref`/`UniRef` references default to `Shape::Ref`. -/
theorem shape_missing_parameter_shape (db : Database)
    (pid : TypeParameterId) (shapes : List (TypeParameterId × Shape))
    (interned : InternedTypeArguments) (f : Nat)
    (h : lookupShape shapes pid = none) :
    TypeRef.shape (f + 1) db interned shapes (.Owned (.TypeParameter pid)) =
      .error (.missingShape pid) ∧
    TypeRef.shape (f + 1) db interned shapes (.Any (.TypeParameter pid)) =
      .error (.missingShape pid) ∧
    TypeRef.shape (f + 1) db interned shapes (.Uni (.TypeParameter pid)) =
      .error (.missingShape pid) ∧
    TypeRef.shape (f + 1) db interned shapes (.Mut (.TypeParameter pid)) =
      .ok (.Mut, interned) ∧
    TypeRef.shape (f + 1) db interned shapes (.UniMut (.TypeParameter pid)) =
      .ok (.Mut, interned) ∧
    TypeRef.shape (f + 1) db interned shapes (.Ref (.TypeParameter pid)) =
      .ok (.Ref, interned) ∧
    TypeRef.shape (f + 1) db interned shapes (.UniRef (.TypeParameter pid)) =
      .ok (.Ref, interned) := by
  refine ⟨?_, ?_, ?_, ?_, ?_, ?_, ?_⟩ <;> simp [TypeRef.shape, h]

theorem shape_missing_parameter_shape_witness :
    TypeRef.shape 1 dbC3 InternedTypeArguments.new []
        (.Owned (.TypeParameter ⟨0⟩)) =
      .error (.missingShape ⟨0⟩) ∧
    TypeRef.shape 1 dbC3 InternedTypeArguments.new []
        (.Ref (.TypeParameter ⟨0⟩)) =
      .ok (.Ref, InternedTypeArguments.new) := by
  have h := shape_missing_parameter_shape dbC3 ⟨0⟩ []
    InternedTypeArguments.new 0 rfl
  exact ⟨h.1, h.2.2.2.2.2.1⟩

/-! ## Theorems about module visibility -/

/-- Visibility scenario database: modules `std.foo`, `std.bar`, `bla`,
`test_bla`; a private class in `std.foo`, one in `bla`, one in
`test_bla`, and a public class. -/
def dbC9 : Database :=
  { type_placeholders := [], type_parameters := [], traits := []
    classes :=
      [Class.new "PrivInStdFoo" .Regular .Private ⟨0⟩ (),
       Class.new "PrivInBla" .Regular .Private ⟨2⟩ (),
       Class.new "PrivInTestBla" .Regular .Private ⟨3⟩ (),
       Class.new "Pub" .Regular .Public ⟨0⟩ ()]
    fields := [], constructors := [], methods := []
    modules :=
      [⟨⟨["std", "foo"]⟩, ⟨0⟩, "foo.inko", []⟩,
       ⟨⟨["std", "bar"]⟩, ⟨1⟩, "bar.inko", []⟩,
       ⟨⟨["bla"]⟩, ⟨2⟩, "bla.inko", []⟩,
       ⟨⟨["test_bla"]⟩, ⟨3⟩, "test_bla.inko", []⟩]
    constants := [], type_arguments := [] }

/-- C9: a `Public` symbol is visible to every module; a `Private`
symbol in `std.foo` is visible to `std.bar` (same root namespace `std`)
and not to `bla`; a private symbol in root module `bla` is visible to
`test_bla`, while one in `test_bla` is not visible to `bla` (the
`test_` allowance is one-directional). -/
theorem visibility_rules :
    (∀ m : ModuleId, Symbol.is_visible_to (.Class ⟨3⟩) dbC9 m = true) ∧
    Symbol.is_visible_to (.Class ⟨0⟩) dbC9 ⟨1⟩ = true ∧
    Symbol.is_visible_to (.Class ⟨0⟩) dbC9 ⟨2⟩ = false ∧
    Symbol.is_visible_to (.Class ⟨1⟩) dbC9 ⟨3⟩ = true ∧
    Symbol.is_visible_to (.Class ⟨2⟩) dbC9 ⟨2⟩ = false := by
  refine ⟨?_, by decide, by decide, by decide, by decide⟩
  intro m
  simp [Symbol.is_visible_to,
    show Symbol.is_public (.Class ⟨3⟩) dbC9 = true from rfl]

/-! ## Theorems about trait requirement inheritance -/

/-- C8: with traits `A[P1]`, `B[P2]` requiring `A[P2]` (so `B` already
stores the inherited mapping `P1 → P2`), and `C[P3]`, making `C` require
`B[P3]` immediately stores on `C` the composed mapping containing
exactly `P1 → P2` and `P2 → P3`: the required trait's already-inherited
mapping merged with the requirement instance's own arguments. -/
theorem add_required_trait_composes (db : Database) (c : TraitId)
    (req : TraitInstance) (p1 p2 : TypeParameterId) (v2 v3 : TypeRef)
    (hB : (db.traitAt req.instance_of.id).inherited_type_arguments =
      ⟨[(p1, v2)]⟩)
    (hgen : req.instance_of.is_generic db = true)
    (hargs : req.type_arguments' db = some ⟨[(p2, v3)]⟩)
    (hC : (db.traitAt c.id).inherited_type_arguments = ⟨[]⟩)
    (hne : p1 ≠ p2)
    (hlt : c.id < db.traits.length) :
    ∃ db', c.add_required_trait db req = some db' ∧
      (db'.traitAt c.id).inherited_type_arguments =
        ⟨[(p1, v2), (p2, v3)]⟩ ∧
      (db'.traitAt c.id).required_traits =
        (db.traitAt c.id).required_traits ++ [req] := by
  have hp21 : ((p2 : TypeParameterId) = p1) = False := by
    simp [Ne.symm hne]
  have hp12 : ((p1 : TypeParameterId) = p2) = False := by
    simp [hne]
  have hassign :
      TypeArguments.copy_into ⟨[(p2, v3)]⟩
        (db.traitAt req.instance_of.id).inherited_type_arguments =
      ⟨[(p1, v2), (p2, v3)]⟩ := by
    rw [hB]
    simp [TypeArguments.copy_into, TypeArguments.assign, hp12, hp21]
  have hmove :
      TypeArguments.move_into ⟨[(p1, v2), (p2, v3)]⟩
        (db.traitAt c.id).inherited_type_arguments =
      ⟨[(p1, v2), (p2, v3)]⟩ := by
    rw [hC]
    simp [TypeArguments.move_into, TypeArguments.assign, hp12, hp21]
  have hres : c.add_required_trait db req =
      some (db.setTrait c.id
        { db.traitAt c.id with
            inherited_type_arguments := ⟨[(p1, v2), (p2, v3)]⟩
            required_traits :=
              (db.traitAt c.id).required_traits ++ [req] }) := by
    unfold TraitId.add_required_trait
    rw [hgen, hargs]
    simp only [if_true, hassign, hmove]
  have htr : ((db.setTrait c.id
      { db.traitAt c.id with
          inherited_type_arguments := ⟨[(p1, v2), (p2, v3)]⟩
          required_traits :=
            (db.traitAt c.id).required_traits ++ [req] }).traitAt c.id) =
      { db.traitAt c.id with
          inherited_type_arguments := ⟨[(p1, v2), (p2, v3)]⟩
          required_traits :=
            (db.traitAt c.id).required_traits ++ [req] } := by
    simp [Database.setTrait, Database.traitAt,
      List.getElem?_set_eq_of_lt _ hlt]
  exact ⟨_, hres, by rw [htr], by rw [htr]⟩

/-- Witness database: trait 0 is `B` with parameter `P2` and inherited
mapping `P1 → P2`; trait 1 is `C`; the requirement instance `B[P3]`
carries the argument set `{P2 → P3}`. -/
def dbC8 : Database :=
  { type_placeholders := []
    type_parameters :=
      [TypeParameter.new "P1", TypeParameter.new "P2",
       TypeParameter.new "P3"]
    traits :=
      [{ Trait.new "B" .Public ⟨0⟩ () with
           type_parameters := [("P2", ⟨1⟩)]
           inherited_type_arguments :=
             ⟨[(⟨0⟩, .Any (.TypeParameter ⟨1⟩))]⟩ },
       { Trait.new "C" .Public ⟨0⟩ () with
           type_parameters := [("P3", ⟨2⟩)] }]
    classes := [], fields := [], constructors := [], methods := []
    modules := [], constants := []
    type_arguments := [⟨[(⟨1⟩, .Any (.TypeParameter ⟨2⟩))]⟩] }

theorem add_required_trait_composes_witness :
    ∃ db', TraitId.add_required_trait ⟨1⟩ dbC8
        ⟨⟨0⟩, 0⟩ = some db' ∧
      (db'.traitAt 1).inherited_type_arguments =
        ⟨[(⟨0⟩, .Any (.TypeParameter ⟨1⟩)),
          (⟨1⟩, .Any (.TypeParameter ⟨2⟩))]⟩ ∧
      (db'.traitAt 1).required_traits =
        (dbC8.traitAt 1).required_traits ++ [⟨⟨0⟩, 0⟩] :=
  add_required_trait_composes dbC8 ⟨1⟩ ⟨⟨0⟩, 0⟩ ⟨0⟩ ⟨1⟩
    (.Any (.TypeParameter ⟨1⟩)) (.Any (.TypeParameter ⟨2⟩))
    rfl rfl rfl rfl (by decide) (by decide)

/-! ## Theorems about recursive type-argument lookup -/

/-- The type parameter referenced directly by a `TypeRef` (the
non-placeholder arms of `as_type_parameter`). -/
def pureAsParam : TypeRef → Option TypeParameterId
  | .Owned (.TypeParameter id) | .Uni (.TypeParameter id)
  | .Ref (.TypeParameter id) | .Mut (.TypeParameter id)
  | .Any (.TypeParameter id)
  | .Owned (.RigidTypeParameter id) | .Uni (.RigidTypeParameter id)
  | .Ref (.RigidTypeParameter id) | .Mut (.RigidTypeParameter id)
  | .UniRef (.RigidTypeParameter id) | .UniMut (.RigidTypeParameter id)
  | .Any (.RigidTypeParameter id) => some id
  | _ => none

def isPlaceholderRef : TypeRef → Bool
  | .Placeholder _ => true
  | _ => false

/-- On non-placeholder references, `as_type_parameter` needs no
recursion and agrees with `pureAsParam` at any positive fuel. -/
theorem as_type_parameter_direct (db : Database) (t : TypeRef)
    (hnp : isPlaceholderRef t = false) (f : Nat) :
    TypeRef.as_type_parameter (f + 1) db t = .ok (pureAsParam t) := by
  cases t with
  | Placeholder pid => simp [isPlaceholderRef] at hnp
  | Owned id => cases id <;> rfl
  | Uni id => cases id <;> rfl
  | Ref id => cases id <;> rfl
  | Mut id => cases id <;> rfl
  | UniRef id => cases id <;> rfl
  | UniMut id => cases id <;> rfl
  | Any id => cases id <;> rfl
  | Never => rfl
  | Error => rfl
  | Unknown => rfl
  | Pointer id => rfl

/-- The alias chain followed by `get_recursive`, together with its
length: the chain from `t` stops after `k` aliasing steps at a
non-parameter value, an unassigned parameter, or a self-referential
binding, and `r` is the last value seen. -/
inductive ResolvesIn (db : Database) (ta : TypeArguments) :
    Nat → TypeRef → TypeRef → Prop where
  | halt (t : TypeRef) : isPlaceholderRef t = false →
      pureAsParam t = none → ResolvesIn db ta 0 t t
  | unassigned (t : TypeRef) (id : TypeParameterId) :
      isPlaceholderRef t = false → pureAsParam t = some id →
      ta.get id = none → ResolvesIn db ta 0 t t
  | selfStop (t : TypeRef) (id : TypeParameterId) :
      isPlaceholderRef t = false → pureAsParam t = some id →
      ta.get id = some t → ResolvesIn db ta 0 t t
  | step (t new r : TypeRef) (id : TypeParameterId) (k : Nat) :
      isPlaceholderRef t = false → pureAsParam t = some id →
      ta.get id = some new → new ≠ t → ResolvesIn db ta k new r →
      ResolvesIn db ta (k + 1) t r

theorem get_recursive_loop_of_resolves (db : Database)
    (ta : TypeArguments) (k : Nat) (t r : TypeRef)
    (h : ResolvesIn db ta k t r) (f : Nat) :
    TypeArguments.get_recursive_loop (f + k + 2) db ta t = .ok r := by
  induction h generalizing f with
  | halt t hnp hpar =>
    show TypeArguments.get_recursive_loop (f + 1 + 1) db ta t = .ok t
    rw [TypeArguments.get_recursive_loop,
      as_type_parameter_direct db t hnp, hpar]
  | unassigned t id hnp hpar hget =>
    show TypeArguments.get_recursive_loop (f + 1 + 1) db ta t = .ok t
    rw [TypeArguments.get_recursive_loop,
      as_type_parameter_direct db t hnp, hpar]
    simp [hget]
  | selfStop t id hnp hpar hget =>
    show TypeArguments.get_recursive_loop (f + 1 + 1) db ta t = .ok t
    rw [TypeArguments.get_recursive_loop,
      as_type_parameter_direct db t hnp, hpar]
    simp [hget]
  | step t new r id k hnp hpar hget hne _hrec ih =>
    show TypeArguments.get_recursive_loop ((f + k + 2) + 1) db ta t = .ok r
    rw [TypeArguments.get_recursive_loop]
    have hf : f + k + 2 = (f + k + 1) + 1 := rfl
    rw [hf, as_type_parameter_direct db t hnp, hpar]
    simp only [hget, if_neg hne]
    exact ih f

/-- C5 amended: `get_recursive` follows parameter-to-parameter aliasing
and terminates with the last value seen whenever the alias chain from
the queried parameter reaches a stopping condition — a non-parameter
value, an unassigned parameter, or a self-referential binding — after
finitely many steps; a mapping whose aliasing forms a cycle of two or
more distinct parameters makes it loop forever (see the
counterexample). -/
theorem get_recursive_terminates (db : Database) (ta : TypeArguments)
    (p : TypeParameterId) (t r : TypeRef) (k : Nat)
    (hget : ta.get p = some t) (hres : ResolvesIn db ta k t r) (f : Nat) :
    TypeArguments.get_recursive (f + k + 2) db ta p = .ok (some r) := by
  unfold TypeArguments.get_recursive
  rw [hget]
  simp [get_recursive_loop_of_resolves db ta k t r hres f, Except.map]

def dbC5 : Database :=
  { type_placeholders := []
    type_parameters := [TypeParameter.new "A", TypeParameter.new "B"]
    traits := [], classes := [], fields := [], constructors := []
    methods := [], modules := [], constants := [], type_arguments := [] }

def taC5 : TypeArguments :=
  ⟨[(⟨0⟩, .Any (.TypeParameter ⟨1⟩)), (⟨1⟩, .Any (.TypeParameter ⟨0⟩))]⟩

theorem get_recursive_loop_two_cycle (f : Nat) :
    TypeArguments.get_recursive_loop f dbC5 taC5
        (.Any (.TypeParameter ⟨1⟩)) = .error .fuel ∧
    TypeArguments.get_recursive_loop f dbC5 taC5
        (.Any (.TypeParameter ⟨0⟩)) = .error .fuel := by
  induction f with
  | zero => exact ⟨rfl, rfl⟩
  | succ g ih =>
    cases g with
    | zero => exact ⟨rfl, rfl⟩
    | succ h =>
      refine ⟨?_, ?_⟩
      · rw [TypeArguments.get_recursive_loop,
          as_type_parameter_direct dbC5 (.Any (.TypeParameter ⟨1⟩)) rfl h]
        simp only [pureAsParam, show taC5.get ⟨1⟩ =
          some (.Any (.TypeParameter ⟨0⟩)) from rfl, if_neg (by decide :
            ¬ (TypeRef.Any (.TypeParameter ⟨0⟩) : TypeRef) =
              .Any (.TypeParameter ⟨1⟩))]
        exact ih.2
      · rw [TypeArguments.get_recursive_loop,
          as_type_parameter_direct dbC5 (.Any (.TypeParameter ⟨0⟩)) rfl h]
        simp only [pureAsParam, show taC5.get ⟨0⟩ =
          some (.Any (.TypeParameter ⟨1⟩)) from rfl, if_neg (by decide :
            ¬ (TypeRef.Any (.TypeParameter ⟨1⟩) : TypeRef) =
              .Any (.TypeParameter ⟨0⟩))]
        exact ih.1

/-- C5 counterexample: on the two-parameter alias cycle
`A → B → A`, `get_recursive` never terminates — no fuel suffices — so
the claim that it terminates for every mapping is false.  The source's
self-binding guard (`new == typ`) only stops one-parameter cycles. -/
theorem get_recursive_two_cycle_diverges :
    ¬ ∃ (f : Nat) (v : Option TypeRef),
        TypeArguments.get_recursive f dbC5 taC5 ⟨0⟩ = .ok v := by
  rintro ⟨f, v, h⟩
  have hloop := (get_recursive_loop_two_cycle f).1
  unfold TypeArguments.get_recursive at h
  rw [show taC5.get ⟨0⟩ = some (.Any (.TypeParameter ⟨1⟩)) from rfl] at h
  simp only [hloop] at h
  exact Except.noConfusion h

def taC5w : TypeArguments := ⟨[(⟨0⟩, TypeRef.int)]⟩

theorem get_recursive_terminates_witness :
    TypeArguments.get_recursive 2 dbC5 taC5w ⟨0⟩ =
      .ok (some TypeRef.int) := by
  have h := get_recursive_terminates dbC5 taC5w ⟨0⟩ TypeRef.int
    TypeRef.int 0 rfl (.halt _ rfl rfl) 0
  exact h

/-! ## Theorems about the ownership conversion algebra -/

/-- Database with one extern class (index 0) for the ownership-algebra
counterexample. -/
def dbC4 : Database :=
  { type_placeholders := [], type_parameters := [], traits := []
    classes := [Class.new "ExternS" .Extern .Public ⟨0⟩ ()]
    fields := [], constructors := [], methods := [], modules := []
    constants := [], type_arguments := [] }

/-- C4 counterexample: an owned extern class instance is a value type
(extern classes are stack-stored), yet `as_owned(as_ref(x))` yields
`Pointer`, not `as_owned(x) = Owned`: the stability identity fails for
extern value types. -/
theorem as_owned_as_ref_fails_for_extern :
    TypeRef.is_value_type 1 dbC4
        (.Owned (.ClassInstance (ClassInstance.new ⟨0⟩))) = .ok true ∧
    TypeRef.as_ref 1 dbC4
        (.Owned (.ClassInstance (ClassInstance.new ⟨0⟩))) =
      .ok (.Pointer (.ClassInstance (ClassInstance.new ⟨0⟩))) ∧
    TypeRef.as_owned 1 dbC4
        (.Pointer (.ClassInstance (ClassInstance.new ⟨0⟩))) =
      .ok (.Pointer (.ClassInstance (ClassInstance.new ⟨0⟩))) ∧
    TypeRef.as_owned 1 dbC4
        (.Owned (.ClassInstance (ClassInstance.new ⟨0⟩))) =
      .ok (.Owned (.ClassInstance (ClassInstance.new ⟨0⟩))) ∧
    (TypeRef.Pointer (.ClassInstance (ClassInstance.new ⟨0⟩))) ≠
      (.Owned (.ClassInstance (ClassInstance.new ⟨0⟩))) := by
  refine ⟨by decide, by decide, by decide, by decide, by decide⟩

/-- C4 amended: for a non-placeholder owned value type that is not an
extern class instance, `as_owned(as_ref(x)) == as_owned(x) == x`; for
an owned instance of an extern class, `as_ref` yields `Pointer` of the
same type id, not `Ref`. -/
theorem as_owned_as_ref_stability (db : Database) (f : Nat) :
    (∀ id : TypeId,
      TypeRef.is_value_type (f + 1) db (.Owned id) = .ok true →
      (∀ ins, id = TypeId.ClassInstance ins →
        ClassKind.is_extern (ins.instance_of.kind db) = false) →
      ∃ y, TypeRef.as_ref (f + 1) db (.Owned id) = .ok y ∧
        TypeRef.as_owned (f + 1) db y = .ok (.Owned id)) ∧
    (∀ ins : ClassInstance, ClassKind.is_extern (ins.instance_of.kind db) = true →
      TypeRef.as_ref (f + 1) db (.Owned (.ClassInstance ins)) =
        .ok (.Pointer (.ClassInstance ins))) := by
  constructor
  · intro id hv hnx
    cases id with
    | ClassInstance ins =>
      have hext := hnx ins rfl
      by_cases hst : ins.instance_of.is_stack_allocated db = true
      · exact ⟨.Owned (.ClassInstance ins),
          by simp [TypeRef.as_ref, hext, hst],
          by simp [TypeRef.as_owned]⟩
      · exact ⟨.Ref (.ClassInstance ins),
          by simp [TypeRef.as_ref, hext, hst],
          by simp [TypeRef.as_owned]⟩
    | Module mid =>
      exact ⟨.Ref (.Module mid), by simp [TypeRef.as_ref],
        by simp [TypeRef.as_owned]⟩
    | Foreign ft =>
      exact ⟨.Ref (.Foreign ft), by simp [TypeRef.as_ref],
        by simp [TypeRef.as_owned]⟩
    | Class cid => simp [TypeRef.is_value_type] at hv
    | Trait tid => simp [TypeRef.is_value_type] at hv
    | TraitInstance ti => simp [TypeRef.is_value_type] at hv
    | TypeParameter pid => simp [TypeRef.is_value_type] at hv
    | RigidTypeParameter pid => simp [TypeRef.is_value_type] at hv
    | AtomicTypeParameter pid => simp [TypeRef.is_value_type] at hv
    | Closure cid => simp [TypeRef.is_value_type] at hv
  · intro ins hext
    simp [TypeRef.as_ref, hext]

/-- Witness database: class 0 is a stack-allocated (non-extern) value
class, class 1 is extern. -/
def dbC4w : Database :=
  { type_placeholders := [], type_parameters := [], traits := []
    classes :=
      [{ Class.new "Val" .Regular .Public ⟨0⟩ () with storage := .Stack },
       Class.new "ExternS" .Extern .Public ⟨0⟩ ()]
    fields := [], constructors := [], methods := [], modules := []
    constants := [], type_arguments := [] }

theorem as_owned_as_ref_stability_witness :
    (∃ y, TypeRef.as_ref 1 dbC4w
        (.Owned (.ClassInstance (ClassInstance.new ⟨0⟩))) = .ok y ∧
      TypeRef.as_owned 1 dbC4w y =
        .ok (.Owned (.ClassInstance (ClassInstance.new ⟨0⟩)))) ∧
    TypeRef.as_ref 1 dbC4w
        (.Owned (.ClassInstance (ClassInstance.new ⟨1⟩))) =
      .ok (.Pointer (.ClassInstance (ClassInstance.new ⟨1⟩))) := by
  have h := as_owned_as_ref_stability dbC4w 0
  exact ⟨h.1 (.ClassInstance (ClassInstance.new ⟨0⟩)) (by decide)
    (by intro ins hins; cases hins; decide),
    h.2 (ClassInstance.new ⟨1⟩) (by decide)⟩

/-! ## Structural equality of nested generic instances

The structure of a nested generic instance — the same classes with the
same resolved argument types at every depth, independent of the
argument-set indices chosen during allocation — is captured by a tree:
leaves are non-generic type IDs, nodes are generic class or trait
instances together with the forest of their argument structures. -/

mutual

inductive STree : Type where
  | leaf : TypeId → STree
  | cls : ClassId → SForest → STree
  | trt : TraitId → SForest → STree

inductive SForest : Type where
  | nil : SForest
  | cons : STree → SForest → SForest

end

mutual

def STree.size : STree → Nat
  | .leaf _ => 1
  | .cls _ cs => cs.size + 1
  | .trt _ cs => cs.size + 1

def SForest.size : SForest → Nat
  | .nil => 0
  | .cons t f => t.size + f.size

end

def SForest.append : SForest → SForest → SForest
  | .nil, g => g
  | .cons t f, g => .cons t (f.append g)

def SForest.rev : SForest → SForest
  | .nil => .nil
  | .cons t f => f.rev.append (.cons t .nil)

def SForest.len : SForest → Nat
  | .nil => 0
  | .cons _ f => f.len + 1

def STree.childForest : STree → SForest
  | .leaf _ => .nil
  | .cls _ cs => cs
  | .trt _ cs => cs

/-- The bare marker pushed onto the flattened key for a node: generic
instances are stripped of their argument-set index. -/
def STree.stripVal : STree → TypeId
  | .leaf tid => tid
  | .cls c _ => .ClassInstance (ClassInstance.new c)
  | .trt t _ => .TraitInstance (TraitInstance.new t)

theorem STree.size_pos : ∀ t : STree, 0 < t.size
  | .leaf _ => Nat.zero_lt_one
  | .cls _ _ => Nat.succ_pos _
  | .trt _ _ => Nat.succ_pos _

theorem SForest.size_append : ∀ f g : SForest,
    (f.append g).size = f.size + g.size
  | .nil, g => by simp [SForest.append, SForest.size]
  | .cons t f, g => by
    simp [SForest.append, SForest.size, SForest.size_append f g]
    omega

theorem SForest.size_rev : ∀ f : SForest, f.rev.size = f.size
  | .nil => rfl
  | .cons t f => by
    simp [SForest.rev, SForest.size_append, SForest.size,
      SForest.size_rev f]
    omega

theorem STree.childForest_size_lt (t : STree) :
    t.childForest.size < t.size := by
  cases t <;> simp [STree.childForest, STree.size, SForest.size]

/-- The flattened key produced by the depth-first walk over a forest:
the stack machine pops the first tree, appends its stripped marker, and
pushes its children in reverse order. -/
def SForest.keyF : SForest → List TypeId
  | .nil => []
  | .cons t f => t.stripVal :: (t.childForest.rev.append f).keyF
termination_by f => f.size
decreasing_by
  simp [SForest.size, SForest.size_append, SForest.size_rev]
  have := STree.childForest_size_lt t
  omega

/-- Fuel sufficient for the walk over a forest: one step per node plus
enough headroom for each node's argument list. -/
def SForest.fuelF : SForest → Nat
  | .nil => 0
  | .cons t f =>
    (max t.childForest.len (t.childForest.rev.append f).fuelF) + 1
termination_by f => f.size
decreasing_by
  simp [SForest.size, SForest.size_append, SForest.size_rev]
  have := STree.childForest_size_lt t
  omega

/-- The type ID referenced directly by a `TypeRef` (the non-placeholder
arms of `type_id`). -/
def pureTypeId : TypeRef → Option TypeId
  | .Pointer id | .Owned id | .Uni id | .Ref id | .Mut id | .UniRef id
  | .UniMut id | .Any id => some id
  | _ => none

/-- All values of an argument mapping are direct references. -/
def allDirectB (l : List (TypeParameterId × TypeRef)) : Bool :=
  l.all (fun kv => (pureTypeId kv.2).isSome)

def directIds (l : List (TypeParameterId × TypeRef)) : List TypeId :=
  l.filterMap (fun kv => pureTypeId kv.2)

/-- A type ID the flattening walk treats as a leaf: not an instance of
a generic class or trait. -/
def notGenericInstanceB (db : Database) : TypeId → Bool
  | .ClassInstance i => !(i.instance_of.is_generic db)
  | .TraitInstance i => !(i.instance_of.is_generic db)
  | _ => true

mutual

/-- `Rep db tid t`: the type ID `tid` is a nested generic instance with
structure `t` — the same classes/traits with the same resolved argument
types at every depth, with all argument values direct references. -/
inductive Rep (db : Database) : TypeId → STree → Prop where
  | leaf (tid : TypeId) : notGenericInstanceB db tid = true →
      Rep db tid (.leaf tid)
  | cls (c : ClassId) (aidx : Nat) (args : TypeArguments) (ts : SForest) :
      c.is_generic db = true →
      db.typeArgumentsAt aidx = some args →
      allDirectB args.mapping = true →
      RepForest db (directIds args.mapping) ts →
      Rep db (.ClassInstance ⟨c, aidx⟩) (.cls c ts)
  | trt (tr : TraitId) (aidx : Nat) (args : TypeArguments) (ts : SForest) :
      tr.is_generic db = true →
      db.typeArgumentsAt aidx = some args →
      allDirectB args.mapping = true →
      RepForest db (directIds args.mapping) ts →
      Rep db (.TraitInstance ⟨tr, aidx⟩) (.trt tr ts)

inductive RepForest (db : Database) : List TypeId → SForest → Prop where
  | nil : RepForest db [] .nil
  | cons {tid : TypeId} {t : STree} {tids : List TypeId} {f : SForest} :
      Rep db tid t → RepForest db tids f →
      RepForest db (tid :: tids) (.cons t f)

end

theorem pureTypeId_type_id (db : Database) (t : TypeRef) (id : TypeId)
    (h : pureTypeId t = some id) (f : Nat) :
    TypeRef.type_id (f + 1) db t = .ok (.ok id) := by
  cases t <;> simp_all [pureTypeId, TypeRef.type_id]

theorem allDirect_directIds_length :
    ∀ l : List (TypeParameterId × TypeRef), allDirectB l = true →
      (directIds l).length = l.length := by
  intro l
  induction l with
  | nil => intro _; rfl
  | cons kv rest ih =>
    intro h
    simp only [allDirectB, List.all_cons, Bool.and_eq_true] at h
    obtain ⟨id, hid⟩ := Option.isSome_iff_exists.mp h.1
    have hrest : allDirectB rest = true := h.2
    simp [directIds, hid, ih hrest]
    intro a b hab
    simpa using List.all_eq_true.mp hrest (a, b) hab

theorem idsOf_direct (db : Database) :
    ∀ (l : List (TypeParameterId × TypeRef)), allDirectB l = true →
      ∀ f, idsOf f db l =
        if l.length < f then .ok (directIds l) else .error .fuel := by
  intro l
  induction l with
  | nil =>
    intro _ f
    cases f with
    | zero => rfl
    | succ g => simp [idsOf, directIds]
  | cons kv rest ih =>
    intro h f
    simp only [allDirectB, List.all_cons, Bool.and_eq_true] at h
    obtain ⟨id, hid⟩ := Option.isSome_iff_exists.mp h.1
    have hrest : allDirectB rest = true := h.2
    cases f with
    | zero => rfl
    | succ g =>
      cases g with
      | zero =>
        simp [idsOf, TypeRef.type_id]
      | succ e =>
        rw [idsOf, pureTypeId_type_id db kv.2 id hid e,
          ih hrest (e + 1)]
        by_cases hc : rest.length < e + 1
        · rw [if_pos hc, if_pos (by simpa using Nat.succ_lt_succ hc)]
          simp [directIds, hid]
        · rw [if_neg hc, if_neg (by
            simp only [List.length_cons]
            omega)]

theorem RepForest.length (db : Database) :
    ∀ (ids : List TypeId) (ts : SForest), RepForest db ids ts →
      ids.length = ts.len := by
  intro ids
  induction ids with
  | nil => intro ts h; cases h; rfl
  | cons tid tids ih =>
    intro ts h
    cases h with
    | cons hT hF => simp [SForest.len, ih _ hF]

theorem RepForest.append' (db : Database) :
    ∀ (xs : List TypeId) (fs : SForest) (ys : List TypeId) (gs : SForest),
      RepForest db xs fs → RepForest db ys gs →
      RepForest db (xs ++ ys) (fs.append gs) := by
  intro xs
  induction xs with
  | nil =>
    intro fs ys gs h1 h2
    cases h1
    simpa [SForest.append] using h2
  | cons tid tids ih =>
    intro fs ys gs h1 h2
    cases h1 with
    | cons hT hF =>
      exact RepForest.cons hT (ih _ _ _ hF h2)

theorem RepForest.reverse' (db : Database) :
    ∀ (xs : List TypeId) (fs : SForest), RepForest db xs fs →
      RepForest db xs.reverse fs.rev := by
  intro xs
  induction xs with
  | nil => intro fs h; cases h; exact RepForest.nil
  | cons tid tids ih =>
    intro fs h
    cases h with
    | cons hT hF =>
      simp only [List.reverse_cons, SForest.rev]
      exact RepForest.append' db _ _ _ _ (ih _ hF)
        (RepForest.cons hT RepForest.nil)

/-- A leaf step of the flattening walk: a non-generic-instance type ID
is appended to the key unchanged, nothing is pushed. -/
theorem internLoop_leaf_step (db : Database) (tid : TypeId)
    (hng : notGenericInstanceB db tid = true) (m : Nat)
    (rest acc : List TypeId) :
    internLoop (m + 1) db (tid :: rest) acc =
      internLoop m db rest (acc ++ [tid]) := by
  cases tid <;> simp_all [internLoop, notGenericInstanceB]

/-- The flattening walk, run on any stack representing a forest with
fuel above the forest's fuel bound, terminates with the forest's
canonical key appended to the accumulator.  The key depends only on the
forest — the structure — not on the argument-set indices inside the
stack. -/
theorem internLoop_spec (db : Database) (k : Nat) :
    ∀ (ts : SForest) (stack acc : List TypeId) (n : Nat),
      ts.size ≤ k → RepForest db stack ts → ts.fuelF < n →
      internLoop n db stack acc = .ok (acc ++ ts.keyF) := by
  induction k with
  | zero =>
    intro ts stack acc n hsz hrep hfu
    cases hrep with
    | nil =>
      cases n with
      | zero => simp [SForest.fuelF] at hfu
      | succ m => simp [internLoop, SForest.keyF]
    | cons hT hF =>
      exfalso
      have h1 := STree.size_pos (by assumption : STree)
      simp [SForest.size] at hsz
      omega
  | succ k ih =>
    intro ts stack acc n hsz hrep hfu
    cases hrep with
    | nil =>
      cases n with
      | zero => simp [SForest.fuelF] at hfu
      | succ m => simp [internLoop, SForest.keyF]
    | @cons tid t tids f hT hF =>
      cases n with
      | zero => simp at hfu
      | succ m =>
        have hszf : t.size + f.size ≤ k + 1 := by
          simpa [SForest.size] using hsz
        cases hT with
        | leaf _ hng =>
          rw [internLoop_leaf_step db tid hng m tids acc]
          have hfu' : f.fuelF < m := by
            simpa [SForest.fuelF, STree.childForest, SForest.rev,
              SForest.append, SForest.len] using hfu
          have hsz' : f.size ≤ k := by
            have := STree.size_pos (STree.leaf tid)
            simp [STree.size] at hszf ⊢
            omega
          rw [ih f tids (acc ++ [tid]) m hsz' hF hfu']
          simp [SForest.keyF, STree.childForest, SForest.rev,
            SForest.append, STree.stripVal]
        | @cls c aidx args ts_c hgen hargs hdir hrepc =>
          have hlen : args.mapping.length = ts_c.len := by
            rw [← allDirect_directIds_length args.mapping hdir]
            exact RepForest.length db _ _ hrepc
          have hfu1 : ts_c.len < m := by
            simp only [SForest.fuelF, STree.childForest] at hfu
            omega
          have hfu2 : ((ts_c.rev.append f)).fuelF < m := by
            simp only [SForest.fuelF, STree.childForest] at hfu
            omega
          have hids := idsOf_direct db args.mapping hdir m
          rw [if_pos (by omega)] at hids
          have hstep :
              internLoop (m + 1) db (.ClassInstance ⟨c, aidx⟩ :: tids)
                acc =
              internLoop m db ((directIds args.mapping).reverse ++ tids)
                (acc ++ [.ClassInstance (ClassInstance.new c)]) := by
            rw [internLoop]
            simp only [hgen, if_true]
            rw [show (ClassInstance.mk c aidx).type_arguments' db =
              some args from hargs]
            simp only [hids]
          rw [hstep]
          have hrep' : RepForest db
              ((directIds args.mapping).reverse ++ tids)
              ((ts_c.rev).append f) :=
            RepForest.append' db _ _ _ _
              (RepForest.reverse' db _ _ hrepc) hF
          have hsz' : ((ts_c.rev).append f).size ≤ k := by
            rw [SForest.size_append, SForest.size_rev]
            simp [STree.size] at hszf
            omega
          rw [ih _ _ _ m hsz' hrep' hfu2]
          simp [SForest.keyF, STree.childForest, STree.stripVal]
        | @trt tr aidx args ts_c hgen hargs hdir hrepc =>
          have hlen : args.mapping.length = ts_c.len := by
            rw [← allDirect_directIds_length args.mapping hdir]
            exact RepForest.length db _ _ hrepc
          have hfu1 : ts_c.len < m := by
            simp only [SForest.fuelF, STree.childForest] at hfu
            omega
          have hfu2 : ((ts_c.rev.append f)).fuelF < m := by
            simp only [SForest.fuelF, STree.childForest] at hfu
            omega
          have hids := idsOf_direct db args.mapping hdir m
          rw [if_pos (by omega)] at hids
          have hstep :
              internLoop (m + 1) db (.TraitInstance ⟨tr, aidx⟩ :: tids)
                acc =
              internLoop m db ((directIds args.mapping).reverse ++ tids)
                (acc ++ [.TraitInstance (TraitInstance.new tr)]) := by
            rw [internLoop]
            simp only [hgen, if_true]
            rw [show (TraitInstance.mk tr aidx).type_arguments' db =
              some args from hargs]
            simp only [hids]
          rw [hstep]
          have hrep' : RepForest db
              ((directIds args.mapping).reverse ++ tids)
              ((ts_c.rev).append f) :=
            RepForest.append' db _ _ _ _
              (RepForest.reverse' db _ _ hrepc) hF
          have hsz' : ((ts_c.rev).append f).size ≤ k := by
            rw [SForest.size_append, SForest.size_rev]
            simp [STree.size] at hszf
            omega
          rw [ih _ _ _ m hsz' hrep' hfu2]
          simp [SForest.keyF, STree.childForest, STree.stripVal]

/-- C1: two class instances that are structurally equal as nested
generic instances (`Rep` relates both to the same tree) intern to the
same key, repeated calls on either instance return that same key from
the per-instance cache, and the key is the argument-set index of the
first structurally-equal instance ever interned. -/
theorem intern_canonicalizes (db : Database) (i1 i2 : ClassInstance)
    (t : STree) (h1 : Rep db (.ClassInstance i1) t)
    (h2 : Rep db (.ClassInstance i2) t) :
    ∃ n s1 s2 s3 s4,
      InternedTypeArguments.intern n db .new i1 =
        .ok (i1.type_arguments, s1) ∧
      InternedTypeArguments.intern n db s1 i2 =
        .ok (i1.type_arguments, s2) ∧
      InternedTypeArguments.intern n db s2 i1 =
        .ok (i1.type_arguments, s3) ∧
      InternedTypeArguments.intern n db s3 i2 =
        .ok (i1.type_arguments, s4) := by
  have hrf1 : RepForest db [.ClassInstance i1] (.cons t .nil) :=
    RepForest.cons h1 RepForest.nil
  have hrf2 : RepForest db [.ClassInstance i2] (.cons t .nil) :=
    RepForest.cons h2 RepForest.nil
  set ts : SForest := .cons t .nil with hts
  set n := ts.fuelF + 1 with hn
  set key := ts.keyF with hkey
  set id1 := i1.type_arguments with hid1
  have hloop1 : internLoop n db [.ClassInstance i1] [] = .ok key := by
    have := internLoop_spec db ts.size ts [.ClassInstance i1] [] n
      le_rfl hrf1 (Nat.lt_succ_self _)
    simpa using this
  have hloop2 : internLoop n db [.ClassInstance i2] [] = .ok key := by
    have := internLoop_spec db ts.size ts [.ClassInstance i2] [] n
      le_rfl hrf2 (Nat.lt_succ_self _)
    simpa using this
  have hc1 : InternedTypeArguments.intern n db .new i1 =
      .ok (id1, ⟨[(i1, id1)], [(key, id1)]⟩) := by
    unfold InternedTypeArguments.intern InternedTypeArguments.new
    simp [lookupAssoc, hloop1, orInsertAssoc]
  by_cases hi : i2 = i1
  · subst hi
    have hcached : InternedTypeArguments.intern n db
        ⟨[(i2, id1)], [(key, id1)]⟩ i2 =
        .ok (id1, ⟨[(i2, id1)], [(key, id1)]⟩) := by
      unfold InternedTypeArguments.intern
      simp [lookupAssoc]
    exact ⟨n, _, _, _, _, hc1, hcached, hcached, hcached⟩
  · have hi' : ¬(i1 = i2) := fun h => hi h.symm
    have hc2 : InternedTypeArguments.intern n db
        ⟨[(i1, id1)], [(key, id1)]⟩ i2 =
        .ok (id1, ⟨[(i1, id1), (i2, id1)], [(key, id1)]⟩) := by
      unfold InternedTypeArguments.intern
      simp [lookupAssoc, List.find?, hi', hloop2, orInsertAssoc]
    have hc3 : InternedTypeArguments.intern n db
        ⟨[(i1, id1), (i2, id1)], [(key, id1)]⟩ i1 =
        .ok (id1, ⟨[(i1, id1), (i2, id1)], [(key, id1)]⟩) := by
      unfold InternedTypeArguments.intern
      simp [lookupAssoc, List.find?]
    have hc4 : InternedTypeArguments.intern n db
        ⟨[(i1, id1), (i2, id1)], [(key, id1)]⟩ i2 =
        .ok (id1, ⟨[(i1, id1), (i2, id1)], [(key, id1)]⟩) := by
      unfold InternedTypeArguments.intern
      simp [lookupAssoc, List.find?, hi']
    exact ⟨n, _, _, _, _, hc1, hc2, hc3, hc4⟩

/-- Witness database: the builtin classes as non-generic dummies, the
`Array` class (ID 14) generic over `T`, and two independently allocated
argument-set chains both denoting `Array[Array[Int]]`: sets 0/1 for the
first build, sets 2/3 for the second. -/
def dbC1 : Database :=
  { type_placeholders := []
    type_parameters := [TypeParameter.new "T"]
    traits := []
    classes :=
      List.replicate 14 (Class.new "B" .Regular .Public ⟨0⟩ ()) ++
        [{ Class.new "Array" .Regular .Public ⟨0⟩ () with
             type_parameters := [("T", ⟨0⟩)] }]
    fields := [], constructors := [], methods := [], modules := []
    constants := []
    type_arguments :=
      [⟨[(⟨0⟩, TypeRef.int)]⟩,
       ⟨[(⟨0⟩, .Owned (.ClassInstance ⟨⟨14⟩, 0⟩))]⟩,
       ⟨[(⟨0⟩, TypeRef.int)]⟩,
       ⟨[(⟨0⟩, .Owned (.ClassInstance ⟨⟨14⟩, 2⟩))]⟩] }

def tIntC1 : STree := .leaf (.ClassInstance (ClassInstance.new ⟨2⟩))

def tInnerC1 : STree := .cls ⟨14⟩ (.cons tIntC1 .nil)

def tOuterC1 : STree := .cls ⟨14⟩ (.cons tInnerC1 .nil)

theorem intern_canonicalizes_witness :
    ∃ n s1 s2 s3 s4,
      InternedTypeArguments.intern n dbC1 .new ⟨⟨14⟩, 1⟩ =
        .ok (1, s1) ∧
      InternedTypeArguments.intern n dbC1 s1 ⟨⟨14⟩, 3⟩ =
        .ok (1, s2) ∧
      InternedTypeArguments.intern n dbC1 s2 ⟨⟨14⟩, 1⟩ =
        .ok (1, s3) ∧
      InternedTypeArguments.intern n dbC1 s3 ⟨⟨14⟩, 3⟩ =
        .ok (1, s4) := by
  have repInt : Rep dbC1 (.ClassInstance (ClassInstance.new ⟨2⟩))
      tIntC1 := Rep.leaf _ (by decide)
  have repInner0 : Rep dbC1 (.ClassInstance ⟨⟨14⟩, 0⟩) tInnerC1 :=
    Rep.cls ⟨14⟩ 0 ⟨[(⟨0⟩, TypeRef.int)]⟩ (.cons tIntC1 .nil)
      (by decide) rfl (by decide)
      (RepForest.cons repInt RepForest.nil)
  have repInner2 : Rep dbC1 (.ClassInstance ⟨⟨14⟩, 2⟩) tInnerC1 :=
    Rep.cls ⟨14⟩ 2 ⟨[(⟨0⟩, TypeRef.int)]⟩ (.cons tIntC1 .nil)
      (by decide) rfl (by decide)
      (RepForest.cons repInt RepForest.nil)
  have rep1 : Rep dbC1 (.ClassInstance ⟨⟨14⟩, 1⟩) tOuterC1 :=
    Rep.cls ⟨14⟩ 1 ⟨[(⟨0⟩, .Owned (.ClassInstance ⟨⟨14⟩, 0⟩))]⟩
      (.cons tInnerC1 .nil) (by decide) rfl (by decide)
      (RepForest.cons repInner0 RepForest.nil)
  have rep2 : Rep dbC1 (.ClassInstance ⟨⟨14⟩, 3⟩) tOuterC1 :=
    Rep.cls ⟨14⟩ 3 ⟨[(⟨0⟩, .Owned (.ClassInstance ⟨⟨14⟩, 2⟩))]⟩
      (.cons tInnerC1 .nil) (by decide) rfl (by decide)
      (RepForest.cons repInner2 RepForest.nil)
  exact intern_canonicalizes dbC1 ⟨⟨14⟩, 1⟩ ⟨⟨14⟩, 3⟩ tOuterC1 rep1 rep2

end Inko
